import Mathlib

/-!
Verification of the UBX protocol decoder/encoder of `ubxtool.py`
(repository Stefal/ubx-to-gpx) against its natural-language specification.

The development is a shallow embedding of the relevant Python code:

* byte buffers are `List Nat` (Python iterates a `bytes` object, yielding
  integers 0..255; the embedding is total on `Nat` and theorems carry
  byte-range hypotheses where the claims restrict to byte values);
* Python machine-integer arithmetic is `Nat`/`Int` with explicit masking
  where the source masks;
* Python `float` arithmetic in the payload decoders multiplies raw integer
  fields by the decimal literals `1E-2`, `1E-7`, ... and rounds; the
  embedding models those literals as the exact decimal rationals they
  denote and `round` as round-half-to-even over `Rat`;
* the checksum-failure diagnostic that `decode_msg` writes to stderr is
  modelled as the boolean field `ckDiag` of the decoder output;
* `decode_msg` returns the pair `(consumed, s_payload)`; the embedding
  additionally exposes, in the `frame` field of `DecodeOut`, the values of
  the local variables `m_class`, `m_id`, `m_len`, `m_payload`, `m_ck_a`,
  `m_ck_b` that are in scope at the return point of a completed UBX frame,
  so that properties about the recovered class/id/payload can be stated;
* registered payload decoders are stored in the dispatch table by name;
  the dict of type name and decoded payload that `decode_msg` returns
  when a decoder is registered is represented as
  `PyVal.dict name decName payload` (the decoder is a pure function of the
  payload, so the pair of its name and argument determines the dict; no
  claim inspects the output of a decoder reached through the dispatch
  table);
* the raising of a Python exception is modelled with `Except`
  (the unknown-key branch of `cfg_by_key` evaluates the undefined name `ket`
  and so raises `NameError`).
-/

/-- Minimal lowercase hexadecimal digits of `n`, as produced by Python
`"%x" % n` (gives "0" for n = 0). -/
def pyHex (n : Nat) : String := String.mk (Nat.toDigits 16 n)

/-- Python `"%#x" % n`: `0x` followed by minimal lowercase hex digits. -/
def pyHashHex (n : Nat) : String := "0x" ++ pyHex n

/-- Python format of n as 02x: lowercase hex padded to width 2. -/
def pyHex2 (n : Nat) : String := if n < 16 then "0" ++ pyHex n else pyHex n

/-- Python join of the 02x-plus-space formatting of the payload bytes (the default
`s_payload` value in `decode_msg`): two hex digits and a space per byte. -/
def hexSpaced (P : List Nat) : String := String.join (P.map fun x => pyHex2 x ++ " ")

/-- Python comma-join of the 02x formatting of the payload bytes (the `x_payload`
value in `decode_msg`). -/
def hexCommas (P : List Nat) : String := String.intercalate "," (P.map pyHex2)

/-- Little-endian read of `n` bytes of `buf` starting at offset `off`
(bytes past the end read as 0; the decoders only read inside the buffer,
guarded by their length checks). -/
def readLE (buf : List Nat) : Nat → Nat → Nat
  | _, 0 => 0
  | off, n + 1 => buf.getD off 0 + 256 * readLE buf (off + 1) n

/-- Twos-complement reinterpretation of a `w`-byte unsigned value, as
`struct.unpack` does for the signed format characters. -/
def toSigned (w : Nat) (u : Nat) : Int :=
  if u < 2 ^ (8 * w - 1) then (u : Int) else (u : Int) - 2 ^ (8 * w)

/-- Format characters of the `struct` format strings used by the payload
decoders (all little-endian): `B`/`b` one byte, `H`/`h` two bytes,
`L`/`l` four bytes; lower case is signed. -/
inductive PK
  | B | b | H | h | L | l
deriving DecidableEq, Repr

/-- Byte width of a format character. -/
def pkSize : PK → Nat
  | .B => 1 | .b => 1
  | .H => 2 | .h => 2
  | .L => 4 | .l => 4

/-- Value of one field read at offset `off`. -/
def pkRead (k : PK) (buf : List Nat) (off : Nat) : Int :=
  match k with
  | .B => (readLE buf off 1 : Int)
  | .b => toSigned 1 (readLE buf off 1)
  | .H => (readLE buf off 2 : Int)
  | .h => toSigned 2 (readLE buf off 2)
  | .L => (readLE buf off 4 : Int)
  | .l => toSigned 4 (readLE buf off 4)

/-- Python `struct.unpack_from(fmt, buf, off)` for the little-endian
formats above: the list of field values, fields laid out consecutively. -/
def unpackFrom : List PK → List Nat → Nat → List Int
  | [], _, _ => []
  | k :: ks, buf, off => pkRead k buf off :: unpackFrom ks buf (off + pkSize k)

/-- Floor of a rational (the denominator is positive, so flooring integer
division of numerator by denominator). -/
def floorQ (q : Rat) : Int := q.num.fdiv q.den

/-- Round a rational to the nearest integer, ties to even — the rounding
used by Python `round`. -/
def rndHalfEven (x : Rat) : Int :=
  let f := floorQ x
  let r := x - (f : Rat)
  if r < 1/2 then f
  else if 1/2 < r then f + 1
  else if f % 2 = 0 then f else f + 1

/-- Python `round(x, n)` modelled over exact rationals: round `x * 10^n`
half-to-even and scale back. -/
def pyRound (x : Rat) (n : Nat) : Rat := ((rndHalfEven (x * 10 ^ n) : Rat)) / 10 ^ n

/-- `ubx.checksum(msg, m_len)` of src/ubxtool.py: running Fletcher-like
sums over `msg[0:m_len]`, both accumulators masked with `0xff` once at the
end; returned as the pair `(ck_a, ck_b)` (the source returns the two-element
list `[ck_a & 0xff, ck_b & 0xff]`). -/
def checksum (msg : List Nat) (m_len : Nat) : Nat × Nat :=
  let p := (msg.take m_len).foldl (fun (p : Nat × Nat) c => (p.1 + c, p.2 + (p.1 + c))) (0, 0)
  (p.1 % 256, p.2 % 256)

/-- Written from the spec (§4.1), for claim C7: for each byte `c` in
order, `ck_a = (ck_a + c) mod 256; ck_b = (ck_b + ck_a) mod 256`, both
accumulators starting at 0. -/
def checksum_spec_fold (msg : List Nat) : Nat × Nat :=
  msg.foldl (fun p c => let a := (p.1 + c) % 256; (a, (p.2 + a) % 256)) (0, 0)

/-- `ubx.make_pkt(m_class, m_id, m_data)` of src/ubxtool.py: leader
`b5 62`, class, id, 16-bit little-endian length, payload, checksum over
class+id+length+payload.  `struct.pack_into("<BBH", ...)` requires the
length to fit in uint16 (and class/id in uint8) — caller responsibility,
hypotheses of the theorems below. -/
def make_pkt (m_class m_id : Nat) (m_data : List Nat) : List Nat :=
  let m_len := m_data.length
  let msg := [m_class, m_id, m_len % 256, m_len / 256] ++ m_data
  let chk := checksum msg (m_len + 4)
  [0xb5, 0x62] ++ msg ++ [chk.1, chk.2]

/-- One entry of the static configuration registry `cfgs`: the tuple
`(name, key, type, scale, unit, description)` of src/ubxtool.py. -/
structure CfgItem where
  name : String
  key : Nat
  valType : String
  scale : Rat
  unit : String
  desc : String
deriving DecidableEq, Repr

/-! The static configuration registry `cfgs` of class ubx
(src/ubxtool.py lines 179-1516): tuples
(name, key, type, scale, unit, description), split below into parts of 64
entries.  Python float scale literals are modelled as the exact decimal
rationals they denote in the source text. -/
/-- Entries 0-63 of the `cfgs` registry (continued). -/
def cfgsPart00 : List CfgItem := [
  ⟨"CFG-GEOFENCE-CONFLVL", 539230225, "E1", 1, "", "Required confidence level for state evaluation"⟩,
  ⟨"CFG-GEOFENCE-USE_PIO", 270794770, "L", 1, "", "Use PIO combined fence state output"⟩,
  ⟨"CFG-GEOFENCE-PINPOL", 539230227, "E1", 1, "", "PIO pin polarity"⟩,
  ⟨"CFG-GEOFENCE-PIN", 539230228, "U1", 1, "", "PIO pin number"⟩,
  ⟨"CFG-GEOFENCE-USE_FENCE1", 270794784, "L", 1, "", "Use first geofence"⟩,
  ⟨"CFG-GEOFENCE-FENCE1_LAT", 1076101153, "I4", (1 : Rat)/10000000, "deg", "Latitude of the first geofence circle center"⟩,
  ⟨"CFG-GEOFENCE-FENCE1_LON", 1076101154, "I4", (1 : Rat)/10000000, "deg", "Longitude of the first geofence circle center"⟩,
  ⟨"CFG-GEOFENCE-FENCE1_RAD", 1076101155, "U4", (1 : Rat)/100, "m", "Radius of the first geofence circle"⟩,
  ⟨"CFG-GEOFENCE-USE_FENCE2", 270794800, "L", 1, "", "Use second geofence"⟩,
  ⟨"CFG-GEOFENCE-FENCE2_LAT", 1076101169, "I4", (1 : Rat)/10000000, "deg", "Latitude of the second geofence circle center"⟩,
  ⟨"CFG-GEOFENCE-FENCE2_LON", 1076101170, "I4", (1 : Rat)/10000000, "deg", "Longitude of the second geofence circle center"⟩,
  ⟨"CFG-GEOFENCE-FENCE2_RAD", 1076101171, "U4", (1 : Rat)/100, "m", "Radius of the second geofence circle"⟩,
  ⟨"CFG-GEOFENCE-USE_FENCE3", 270794816, "L", 1, "", "Use third geofence"⟩,
  ⟨"CFG-GEOFENCE-FENCE3_LAT", 1076101185, "I4", (1 : Rat)/10000000, "deg", "Latitude of the third geofence circle center"⟩,
  ⟨"CFG-GEOFENCE-FENCE3_LON", 1076101186, "I4", (1 : Rat)/10000000, "deg", "Longitude of the third geofence circle center"⟩,
  ⟨"CFG-GEOFENCE-FENCE3_RAD", 1076101187, "U4", (1 : Rat)/100, "m", "Radius of the third geofence circle"⟩,
  ⟨"CFG-GEOFENCE-USE_FENCE4", 270794832, "L", 1, "", "Use fourth geofence"⟩,
  ⟨"CFG-GEOFENCE-FENCE4_LAT", 1076101201, "I4", (1 : Rat)/10000000, "deg", "Latitude of the fourth geofence circle center"⟩,
  ⟨"CFG-GEOFENCE-FENCE4_LON", 1076101202, "I4", (1 : Rat)/10000000, "deg", "Longitude of the fourth geofence circle center"⟩,
  ⟨"CFG-GEOFENCE-FENCE4_RAD", 1076101203, "U4", (1 : Rat)/100, "m", "Radius of the fourth geofence circle"⟩,
  ⟨"CFG-HW-ANT_CFG_VOLTCTRL", 279117870, "L", 1, "", "Active antenna voltage control flag"⟩,
  ⟨"CFG-HW-ANT_CFG_SHORTDET", 279117871, "L", 1, "", "Short antenna detection flag"⟩,
  ⟨"CFG-HW-ANT_CFG_SHORTDET_POL", 279117872, "L", 1, "", "Short antenna detection polarity"⟩,
  ⟨"CFG-HW-ANT_CFG_OPENDET", 279117873, "L", 1, "", "Open antenna detection flag"⟩,
  ⟨"CFG-HW-ANT_CFG_OPENDET_POL", 279117874, "L", 1, "", "Open antenna detection polarity"⟩,
  ⟨"CFG-HW-ANT_CFG_PWRDOWN", 279117875, "L", 1, "", "Power down antenna flag"⟩,
  ⟨"CFG-HW-ANT_CFG_PWRDOWN_POL", 279117876, "L", 1, "", "Power down antenna logic polarity"⟩,
  ⟨"CFG-HW-ANT_CFG_RECOVER", 279117877, "L", 1, "", "Automatic recovery from short state flag"⟩,
  ⟨"CFG-HW-ANT_SUP_SWITCH_PIN", 547553334, "U1", 1, "", "ANT1 PIO number"⟩,
  ⟨"CFG-HW-ANT_SUP_SHORT_PIN", 547553335, "U1", 1, "", "ANT0 PIO number"⟩,
  ⟨"CFG-HW-ANT_SUP_OPEN_PIN", 547553336, "U1", 1, "", "ANT2 PIO number"⟩,
  ⟨"CFG-I2C-ADDRESS", 542179329, "U1", 1, "", "I2C slave address of the receiver"⟩,
  ⟨"CFG-I2C-EXTENDEDTIMEOUT", 273743874, "L", 1, "", "Flag to disable timeouting the interface after 1.5 s"⟩,
  ⟨"CFG-I2C-ENABLED", 273743875, "L", 1, "", "Flag to indicate if the I2C interface should be enabled"⟩,
  ⟨"CFG-I2CINPROT-UBX", 275841025, "L", 1, "", "Flag to indicate if UBX should be an input on I2C"⟩,
  ⟨"CFG-I2CINPROT-NMEA", 275841026, "L", 1, "", "Flag to indicate if NMEA should be an input on I2C"⟩,
  ⟨"CFG-I2CINPROT-RTCM2X", 275841027, "L", 1, "", "Flag to indicate if RTCM2X should be an input on I2C"⟩,
  ⟨"CFG-I2CINPROT-RTCM3X", 275841028, "L", 1, "", "Flag to indicate if RTCM3X should be input on I2C"⟩,
  ⟨"CFG-I2COUTPROT-UBX", 275906561, "L", 1, "", "Flag to indicate if UBX should be an output on I2C"⟩,
  ⟨"CFG-I2COUTPROT-NMEA", 275906562, "L", 1, "", "Flag to indicate if NMEA should be an output on I2C"⟩,
  ⟨"CFG-I2COUTPROT-RTCM3X", 275906564, "L", 1, "", "Flag to indicate if RTCM3X should be an output on I2C"⟩,
  ⟨"CFG-INFMSG-UBX_I2C", 546439169, "X1", 1, "", "Information message enable flags for UBX protocol on I2C"⟩,
  ⟨"CFG-INFMSG-UBX_UART1", 546439170, "X1", 1, "", "Information message enable flags for UBX protocol on UART1"⟩,
  ⟨"CFG-INFMSG-UBX_UART2", 546439171, "X1", 1, "", "Information message enable flags for UBX protocol on UART2"⟩,
  ⟨"CFG-INFMSG-UBX_USB", 546439172, "X1", 1, "", "Information message enable flags for UBX protocol on USB"⟩,
  ⟨"CFG-INFMSG-UBX_SPI", 546439173, "X1", 1, "", "Information message enable flags for UBX protocol on SPI"⟩,
  ⟨"CFG-INFMSG-NMEA_I2C", 546439174, "X1", 1, "", "Information message enable flags for NMEA protocol on I2C"⟩,
  ⟨"CFG-INFMSG-NMEA_UART1", 546439175, "X1", 1, "", "Information message enable flags for NMEA protocol on UART1"⟩,
  ⟨"CFG-INFMSG-NMEA_UART2", 546439176, "X1", 1, "", "Information message enable flags for NMEA protocol on UART2"⟩,
  ⟨"CFG-INFMSG-NMEA_USB", 546439177, "X1", 1, "", "Information message enable flags for NMEA protocol on USB"⟩,
  ⟨"CFG-INFMSG-NMEA_SPI", 546439178, "X1", 1, "", "Information message enable flags for NMEA protocol on SPI"⟩,
  ⟨"CFG-ITFM-BBTHRESHOLD", 541130753, "U1", 1, "", "Broadband jamming detection threshold"⟩,
  ⟨"CFG-ITFM-CWTHRESHOLD", 541130754, "U1", 1, "", "CW jamming detection threshold"⟩,
  ⟨"CFG-ITFM-ENABLE", 272695309, "L", 1, "", "Enable interference detection"⟩,
  ⟨"CFG-ITFM-ANTSETTING", 541130768, "E1", 1, "", "Antenna setting"⟩,
  ⟨"CFG-ITFM-ENABLE_AUX", 272695315, "L", 1, "", "Set to true to scan auxiliary bands"⟩,
  ⟨"CFG-LOGFILTER-RECORD_ENA", 282984450, "L", 1, "", "Recording enabled"⟩,
  ⟨"CFG-LOGFILTER-ONCE_PER_WAKE_UP_ENA", 282984451, "L", 1, "", "Once per wakeup"⟩,
  ⟨"CFG-LOGFILTER-APPLY_ALL_FILTERS", 282984452, "L", 1, "", "Apply all filter settings"⟩,
  ⟨"CFG-LOGFILTER-MIN_INTERVAL", 819855365, "U2", 1, "s", "Minimum time interval between logged positions"⟩,
  ⟨"CFG-LOGFILTER-TIME_THRS", 819855366, "U2", 1, "s", "Time threshold"⟩,
  ⟨"CFG-LOGFILTER-SPEED_THRS", 819855367, "U2", 1, "m/s", "Speed threshold"⟩,
  ⟨"CFG-LOGFILTER-POSITION_THRS", 1088290824, "U4", 1, "m", "Position threshold"⟩,
  ⟨"CFG-MOT-GNSSSPEED_THRS", 539295800, "U1", (1 : Rat)/100, "m/s", "GNSS speed threshold below which platform is considered as stationary"⟩]

/-- Entries 64-127 of the `cfgs` registry (continued). -/
def cfgsPart01 : List CfgItem := [
  ⟨"CFG-MOT-GNSSDIST_THRS", 807731259, "U2", 1, "", "Distance above which GNSS-based stationary motion is exit"⟩,
  ⟨"CFG-MSGOUT-NMEA_ID_DTM_I2C", 546373798, "U1", 1, "", "Output rate of the NMEA-GX-DTM message on port I2C"⟩,
  ⟨"CFG-MSGOUT-NMEA_ID_DTM_SPI", 546373802, "U1", 1, "", "Output rate of the NMEA-GX-DTM message on port SPI"⟩,
  ⟨"CFG-MSGOUT-NMEA_ID_DTM_UART1", 546373799, "U1", 1, "", "Output rate of the NMEA-GX-DTM message on port UART1"⟩,
  ⟨"CFG-MSGOUT-NMEA_ID_DTM_UART2", 546373800, "U1", 1, "", "Output rate of the NMEA-GX-DTM message on port UART2"⟩,
  ⟨"CFG-MSGOUT-NMEA_ID_DTM_USB", 546373801, "U1", 1, "", "Output rate of the NMEA-GX-DTM message on port USB"⟩,
  ⟨"CFG-MSGOUT-NMEA_ID_GBS_I2C", 546373853, "U1", 1, "", "Output rate of the NMEA-GX-GBS message on port I2C"⟩,
  ⟨"CFG-MSGOUT-NMEA_ID_GBS_SPI", 546373857, "U1", 1, "", "Output rate of the NMEA-GX-GBS message on port SPI"⟩,
  ⟨"CFG-MSGOUT-NMEA_ID_GBS_UART1", 546373854, "U1", 1, "", "Output rate of the NMEA-GX-GBS message on port UART1"⟩,
  ⟨"CFG-MSGOUT-NMEA_ID_GBS_UART2", 546373855, "U1", 1, "", "Output rate of the NMEA-GX-GBS message on port UART2"⟩,
  ⟨"CFG-MSGOUT-NMEA_ID_GBS_USB", 546373856, "U1", 1, "", "Output rate of the NMEA-GX-GBS message on port USB"⟩,
  ⟨"CFG-MSGOUT-NMEA_ID_GGA_I2C", 546373818, "U1", 1, "", "Output rate of the NMEA-GX-GGA message on port I2C"⟩,
  ⟨"CFG-MSGOUT-NMEA_ID_GGA_SPI", 546373822, "U1", 1, "", "Output rate of the NMEA-GX-GGA message on port SPI"⟩,
  ⟨"CFG-MSGOUT-NMEA_ID_GGA_UART1", 546373819, "U1", 1, "", "Output rate of the NMEA-GX-GGA message on port UART1"⟩,
  ⟨"CFG-MSGOUT-NMEA_ID_GGA_UART2", 546373820, "U1", 1, "", "Output rate of the NMEA-GX-GGA message on port UART2"⟩,
  ⟨"CFG-MSGOUT-NMEA_ID_GGA_USB", 546373821, "U1", 1, "", "Output rate of the NMEA-GX-GGA message on port USB"⟩,
  ⟨"CFG-MSGOUT-NMEA_ID_GLL_I2C", 546373833, "U1", 1, "", "Output rate of the NMEA-GX-GLL message on port I2C"⟩,
  ⟨"CFG-MSGOUT-NMEA_ID_GLL_SPI", 546373837, "U1", 1, "", "Output rate of the NMEA-GX-GLL message on port SPI"⟩,
  ⟨"CFG-MSGOUT-NMEA_ID_GLL_UART1", 546373834, "U1", 1, "", "Output rate of the NMEA-GX-GLL message on port UART1"⟩,
  ⟨"CFG-MSGOUT-NMEA_ID_GLL_UART2", 546373835, "U1", 1, "", "Output rate of the NMEA-GX-GLL message on port UART2"⟩,
  ⟨"CFG-MSGOUT-NMEA_ID_GLL_USB", 546373836, "U1", 1, "", "Output rate of the NMEA-GX-GLL message on port USB"⟩,
  ⟨"CFG-MSGOUT-NMEA_ID_GNS_I2C", 546373813, "U1", 1, "", "Output rate of the NMEA-GX-GNS message on port I2C"⟩,
  ⟨"CFG-MSGOUT-NMEA_ID_GNS_SPI", 546373817, "U1", 1, "", "Output rate of the NMEA-GX-GNS message on port SPI"⟩,
  ⟨"CFG-MSGOUT-NMEA_ID_GNS_UART1", 546373814, "U1", 1, "", "Output rate of the NMEA-GX-GNS message on port UART1"⟩,
  ⟨"CFG-MSGOUT-NMEA_ID_GNS_UART2", 546373815, "U1", 1, "", "Output rate of the NMEA-GX-GNS message on port UART2"⟩,
  ⟨"CFG-MSGOUT-NMEA_ID_GNS_USB", 546373816, "U1", 1, "", "Output rate of the NMEA-GX-GNS message on port USB"⟩,
  ⟨"CFG-MSGOUT-NMEA_ID_GRS_I2C", 546373838, "U1", 1, "", "Output rate of the NMEA-GX-GRS message on port I2C"⟩,
  ⟨"CFG-MSGOUT-NMEA_ID_GRS_SPI", 546373842, "U1", 1, "", "Output rate of the NMEA-GX-GRS message on port SPI"⟩,
  ⟨"CFG-MSGOUT-NMEA_ID_GRS_UART1", 546373839, "U1", 1, "", "Output rate of the NMEA-GX-GRS message on port UART1"⟩,
  ⟨"CFG-MSGOUT-NMEA_ID_GRS_UART2", 546373840, "U1", 1, "", "Output rate of the NMEA-GX-GRS message on port UART2"⟩,
  ⟨"CFG-MSGOUT-NMEA_ID_GRS_USB", 546373841, "U1", 1, "", "Output rate of the NMEA-GX-GRS message on port USB"⟩,
  ⟨"CFG-MSGOUT-NMEA_ID_GSA_I2C", 546373823, "U1", 1, "", "Output rate of the NMEA-GX-GSA message on port I2C"⟩,
  ⟨"CFG-MSGOUT-NMEA_ID_GSA_SPI", 546373827, "U1", 1, "", "Output rate of the NMEA-GX-GSA message on port SPI"⟩,
  ⟨"CFG-MSGOUT-NMEA_ID_GSA_UART1", 546373824, "U1", 1, "", "Output rate of the NMEA-GX-GSA message on port UART1"⟩,
  ⟨"CFG-MSGOUT-NMEA_ID_GSA_UART2", 546373825, "U1", 1, "", "Output rate of the NMEA-GX-GSA message on port UART2"⟩,
  ⟨"CFG-MSGOUT-NMEA_ID_GSA_USB", 546373826, "U1", 1, "", "Output rate of the NMEA-GX-GSA message on port USB"⟩,
  ⟨"CFG-MSGOUT-NMEA_ID_GST_I2C", 546373843, "U1", 1, "", "Output rate of the NMEA-GX-GST message on port I2C"⟩,
  ⟨"CFG-MSGOUT-NMEA_ID_GST_SPI", 546373847, "U1", 1, "", "Output rate of the NMEA-GX-GST message on port SPI"⟩,
  ⟨"CFG-MSGOUT-NMEA_ID_GST_UART1", 546373844, "U1", 1, "", "Output rate of the NMEA-GX-GST message on port UART1"⟩,
  ⟨"CFG-MSGOUT-NMEA_ID_GST_UART2", 546373845, "U1", 1, "", "Output rate of the NMEA-GX-GST message on port UART2"⟩,
  ⟨"CFG-MSGOUT-NMEA_ID_GST_USB", 546373846, "U1", 1, "", "Output rate of the NMEA-GX-GST message on port USB"⟩,
  ⟨"CFG-MSGOUT-NMEA_ID_GSV_I2C", 546373828, "U1", 1, "", "Output rate of the NMEA-GX-GSV message on port I2C"⟩,
  ⟨"CFG-MSGOUT-NMEA_ID_GSV_SPI", 546373832, "U1", 1, "", "Output rate of the NMEA-GX-GSV message on port SPI"⟩,
  ⟨"CFG-MSGOUT-NMEA_ID_GSV_UART1", 546373829, "U1", 1, "", "Output rate of the NMEA-GX-GSV message on port UART1"⟩,
  ⟨"CFG-MSGOUT-NMEA_ID_GSV_UART2", 546373830, "U1", 1, "", "Output rate of the NMEA-GX-GSV message on port UART"⟩,
  ⟨"CFG-MSGOUT-NMEA_ID_GSV_USB", 546373831, "U1", 1, "", "Output rate of the NMEA-GX-GSV message on port USB"⟩,
  ⟨"CFG-MSGOUT-NMEA_ID_RMC_I2C", 546373803, "U1", 1, "", "Output rate of the NMEA-GX-RMC message on port I2C"⟩,
  ⟨"CFG-MSGOUT-NMEA_ID_RMC_SPI", 546373807, "U1", 1, "", "Output rate of the NMEA-GX-RMC message on port SPI"⟩,
  ⟨"CFG-MSGOUT-NMEA_ID_RMC_UART1", 546373804, "U1", 1, "", "Output rate of the NMEA-GX-RMC message on port UART1"⟩,
  ⟨"CFG-MSGOUT-NMEA_ID_RMC_UART2", 546373805, "U1", 1, "", "Output rate of the NMEA-GX-RMC message on port UART2"⟩,
  ⟨"CFG-MSGOUT-NMEA_ID_RMC_USB", 546373806, "U1", 1, "", "Output rate of the NMEA-GX-RMC message on port USB"⟩,
  ⟨"CFG-MSGOUT-NMEA_ID_VLW_I2C", 546373863, "U1", 1, "", "Output rate of the NMEA-GX-VLW message on port I2C"⟩,
  ⟨"CFG-MSGOUT-NMEA_ID_VLW_SPI", 546373867, "U1", 1, "", "Output rate of the NMEA-GX-VLW message on port SPI"⟩,
  ⟨"CFG-MSGOUT-NMEA_ID_VLW_UART1", 546373864, "U1", 1, "", "Output rate of the NMEA-GX-VLW message on port UART1"⟩,
  ⟨"CFG-MSGOUT-NMEA_ID_VLW_UART2", 546373865, "U1", 1, "", "Output rate of the NMEA-GX-VLW message on port UART2"⟩,
  ⟨"CFG-MSGOUT-NMEA_ID_VLW_USB", 546373866, "U1", 1, "", "Output rate of the NMEA-GX-VLW message on port USB"⟩,
  ⟨"CFG-MSGOUT-NMEA_ID_VTG_I2C", 546373808, "U1", 1, "", "Output rate of the NMEA-GX-VTG message on port I2C"⟩,
  ⟨"CFG-MSGOUT-NMEA_ID_VTG_SPI", 546373812, "U1", 1, "", "Output rate of the NMEA-GX-VTG message on port SPI"⟩,
  ⟨"CFG-MSGOUT-NMEA_ID_VTG_UART1", 546373809, "U1", 1, "", "Output rate of the NMEA-GX-VTG message on port UART1"⟩,
  ⟨"CFG-MSGOUT-NMEA_ID_VTG_UART2", 546373810, "U1", 1, "", "Output rate of the NMEA-GX-VTG message on port UART2"⟩,
  ⟨"CFG-MSGOUT-NMEA_ID_VTG_USB", 546373811, "U1", 1, "", "Output rate of the NMEA-GX-VTG message on port USB"⟩,
  ⟨"CFG-MSGOUT-NMEA_ID_ZDA_I2C", 546373848, "U1", 1, "", "Output rate of the NMEA-GX-ZDA message on port I2C"⟩,
  ⟨"CFG-MSGOUT-NMEA_ID_ZDA_SPI", 546373852, "U1", 1, "", "Output rate of the NMEA-GX-ZDA message on port SPI"⟩,
  ⟨"CFG-MSGOUT-NMEA_ID_ZDA_UART1", 546373849, "U1", 1, "", "Output rate of the NMEA-GX-ZDA message on port UART1"⟩]

/-- Entries 128-191 of the `cfgs` registry (continued). -/
def cfgsPart02 : List CfgItem := [
  ⟨"CFG-MSGOUT-NMEA_ID_ZDA_UART2", 546373850, "U1", 1, "", "Output rate of the NMEA-GX-ZDA message on port UART2"⟩,
  ⟨"CFG-MSGOUT-NMEA_ID_ZDA_USB", 546373851, "U1", 1, "", "Output rate of the NMEA-GX-ZDA message on port USB"⟩,
  ⟨"CFG-MSGOUT-PUBX_ID_POLYP_I2C", 546373868, "U1", 1, "", "Output rate of the NMEA-GX-PUBX00 message on port I2C"⟩,
  ⟨"CFG-MSGOUT-PUBX_ID_POLYP_SPI", 546373872, "U1", 1, "", "Output rate of the NMEA-GX-PUBX00 message on port SPI"⟩,
  ⟨"CFG-MSGOUT-PUBX_ID_POLYP_UART1", 546373869, "U1", 1, "", "Output rate of the NMEA-GX-PUBX00 message on port UART1"⟩,
  ⟨"CFG-MSGOUT-PUBX_ID_POLYP_UART2", 546373870, "U1", 1, "", "Output rate of the NMEA-GX-PUBX00 message on port UART2"⟩,
  ⟨"CFG-MSGOUT-PUBX_ID_POLYP_USB", 546373871, "U1", 1, "", "Output rate of the NMEA-GX-PUBX00 message on port USB"⟩,
  ⟨"CFG-MSGOUT-PUBX_ID_POLYS_I2C", 546373873, "U1", 1, "", "Output rate of the NMEA-GX-PUBX03 message on port I2C"⟩,
  ⟨"CFG-MSGOUT-PUBX_ID_POLYS_SPI", 546373877, "U1", 1, "", "Output rate of the NMEA-GX-PUBX03 message on port SPI"⟩,
  ⟨"CFG-MSGOUT-PUBX_ID_POLYS_UART1", 546373874, "U1", 1, "", "Output rate of the NMEA-GX-PUBX03 message on port UART1"⟩,
  ⟨"CFG-MSGOUT-PUBX_ID_POLYS_UART2", 546373875, "U1", 1, "", "Output rate of the NMEA-GX-PUBX03 message on port UART2"⟩,
  ⟨"CFG-MSGOUT-PUBX_ID_POLYS_USB", 546373876, "U1", 1, "", "Output rate of the NMEA-GX-PUBX03 message on port USB"⟩,
  ⟨"CFG-MSGOUT-PUBX_ID_POLYT_I2C", 546373878, "U1", 1, "", "Output rate of the NMEA-GX-PUBX04 message on port I2C"⟩,
  ⟨"CFG-MSGOUT-PUBX_ID_POLYT_SPI", 546373882, "U1", 1, "", "Output rate of the NMEA-GX-PUBX04 message on port SPI"⟩,
  ⟨"CFG-MSGOUT-PUBX_ID_POLYT_UART1", 546373879, "U1", 1, "", "Output rate of the NMEA-GX-PUBX04 message on port UART1"⟩,
  ⟨"CFG-MSGOUT-PUBX_ID_POLYT_UART2", 546373880, "U1", 1, "", "Output rate of the NMEA-GX-PUBX04 message on port UART2"⟩,
  ⟨"CFG-MSGOUT-PUBX_ID_POLYT_USB", 546373881, "U1", 1, "", "Output rate of the NMEA-GX-PUBX04 message on port USB"⟩,
  ⟨"CFG-MSGOUT-RTCM_3X_TYPE1005_I2C", 546374333, "U1", 1, "", "Output rate of the RTCM-3X-TYPE1005 message on port I2C"⟩,
  ⟨"CFG-MSGOUT-RTCM_3X_TYPE1005_SPI", 546374337, "U1", 1, "", "Output rate of the RTCM-3X-TYPE1005 message on port SPI"⟩,
  ⟨"CFG-MSGOUT-RTCM_3X_TYPE1005_UART1", 546374334, "U1", 1, "", "Output rate of the RTCM-3X-TYPE1005 message on port UART1"⟩,
  ⟨"CFG-MSGOUT-RTCM_3X_TYPE1005_UART2", 546374335, "U1", 1, "", "Output rate of the RTCM-3X-TYPE1005 message on port UART2"⟩,
  ⟨"CFG-MSGOUT-RTCM_3X_TYPE1005_USB", 546374336, "U1", 1, "", "Output rate of the RTCM-3X-TYPE1005 message on port USB"⟩,
  ⟨"CFG-MSGOUT-RTCM_3X_TYPE1074_I2C", 546374494, "U1", 1, "", "Output rate of the RTCM-3X-TYPE1074 message on port I2C"⟩,
  ⟨"CFG-MSGOUT-RTCM_3X_TYPE1074_SPI", 546374498, "U1", 1, "", "Output rate of the RTCM-3X-TYPE1074 message on port SPI"⟩,
  ⟨"CFG-MSGOUT-RTCM_3X_TYPE1074_UART1", 546374495, "U1", 1, "", "Output rate of the RTCM-3X-TYPE1074 message on port UART1"⟩,
  ⟨"CFG-MSGOUT-RTCM_3X_TYPE1074_UART2", 546374496, "U1", 1, "", "Output rate of the RTCM-3X-TYPE1074 message on port UART2"⟩,
  ⟨"CFG-MSGOUT-RTCM_3X_TYPE1074_USB", 546374497, "U1", 1, "", "Output rate of the RTCM-3X-TYPE1074 message on port USB"⟩,
  ⟨"CFG-MSGOUT-RTCM_3X_TYPE1077_I2C", 546374348, "U1", 1, "", "Output rate of the RTCM-3X-TYPE1077 message on port I2"⟩,
  ⟨"CFG-MSGOUT-RTCM_3X_TYPE1077_SPI", 546374352, "U1", 1, "", "Output rate of the RTCM-3X-TYPE1077 message on port SPI"⟩,
  ⟨"CFG-MSGOUT-RTCM_3X_TYPE1077_UART1", 546374349, "U1", 1, "", "Output rate of the RTCM-3X-TYPE1077 message on port UART1"⟩,
  ⟨"CFG-MSGOUT-RTCM_3X_TYPE1077_UART2", 546374350, "U1", 1, "", "Output rate of the RTCM-3X-TYPE1077 message on port UART2"⟩,
  ⟨"CFG-MSGOUT-RTCM_3X_TYPE1077_USB", 546374351, "U1", 1, "", "Output rate of the RTCM-3X-TYPE1077 message on port USB"⟩,
  ⟨"CFG-MSGOUT-RTCM_3X_TYPE1087_I2C", 546374353, "U1", 1, "", "Output rate of the RTCM-3X-TYPE1087 message on port I2C"⟩,
  ⟨"CFG-MSGOUT-RTCM_3X_TYPE1084_SPI", 546374503, "U1", 1, "", "Output rate of the RTCM-3X-TYPE1084 message on port SPI"⟩,
  ⟨"CFG-MSGOUT-RTCM_3X_TYPE1084_UART1", 546374500, "U1", 1, "", "Output rate of the RTCM-3X-TYPE1084 message on port UART1"⟩,
  ⟨"CFG-MSGOUT-RTCM_3X_TYPE1084_UART2", 546374501, "U1", 1, "", "Output rate of the RTCM-3X-TYPE1084 message on port UART2"⟩,
  ⟨"CFG-MSGOUT-RTCM_3X_TYPE1084_USB", 546374502, "U1", 1, "", "Output rate of the RTCM-3X-TYPE1084 message on port USB"⟩,
  ⟨"CFG-MSGOUT-RTCM_3X_TYPE1087_SPI", 546374357, "U1", 1, "", "Output rate of the RTCM-3X-TYPE1087 message on port SPI"⟩,
  ⟨"CFG-MSGOUT-RTCM_3X_TYPE1087_UART1", 546374354, "U1", 1, "", "Output rate of the RTCM-3X-TYPE1087 message on port UART1"⟩,
  ⟨"CFG-MSGOUT-RTCM_3X_TYPE1087_UART2", 546374355, "U1", 1, "", "Output rate of the RTCM-3X-TYPE1087 message on port UART2"⟩,
  ⟨"CFG-MSGOUT-RTCM_3X_TYPE1087_USB", 546374356, "U1", 1, "", "Output rate of the RTCM-3X-TYPE1087 message on port USB"⟩,
  ⟨"CFG-MSGOUT-RTCM_3X_TYPE1094_I2C", 546374504, "U1", 1, "", "Output rate of the RTCM-3X-TYPE1094 message on port I2C"⟩,
  ⟨"CFG-MSGOUT-RTCM_3X_TYPE1094_SPI", 546374508, "U1", 1, "", "Output rate of the RTCM-3X-TYPE1094 message on port SPI"⟩,
  ⟨"CFG-MSGOUT-RTCM_3X_TYPE1094_UART1", 546374505, "U1", 1, "", "Output rate of the RTCM-3X-TYPE1094 message on port UART1"⟩,
  ⟨"CFG-MSGOUT-RTCM_3X_TYPE1094_UART2", 546374506, "U1", 1, "", "Output rate of the RTCM-3X-TYPE1094 message on port UART2"⟩,
  ⟨"CFG-MSGOUT-RTCM_3X_TYPE1094_USB", 546374507, "U1", 1, "", "Output rate of the RTCM-3X-TYPE1094 message on port USB"⟩,
  ⟨"CFG-MSGOUT-RTCM_3X_TYPE1097_I2C", 546374424, "U1", 1, "", "Output rate of the RTCM-3X-TYPE1097 message on port I2C"⟩,
  ⟨"CFG-MSGOUT-RTCM_3X_TYPE1097_SPI", 546374428, "U1", 1, "", "Output rate of the RTCM-3X-TYPE1097 message on port SPI"⟩,
  ⟨"CFG-MSGOUT-RTCM_3X_TYPE1097_UART1", 546374425, "U1", 1, "", "Output rate of the RTCM-3X-TYPE1097 message on port UART1"⟩,
  ⟨"CFG-MSGOUT-RTCM_3X_TYPE1097_UART2", 546374426, "U1", 1, "", "Output rate of the RTCM-3X-TYPE1097 message on port UART2"⟩,
  ⟨"CFG-MSGOUT-RTCM_3X_TYPE1097_USB", 546374427, "U1", 1, "", "Output rate of the RTCM-3X-TYPE1097 message on port USB"⟩,
  ⟨"CFG-MSGOUT-RTCM_3X_TYPE1124_I2C", 546374509, "U1", 1, "", "Output rate of the RTCM-3X-TYPE1124 message on port I2C"⟩,
  ⟨"CFG-MSGOUT-RTCM_3X_TYPE1124_SPI", 546374513, "U1", 1, "", "Output rate of the RTCM-3X-TYPE1124 message on port SPI"⟩,
  ⟨"CFG-MSGOUT-RTCM_3X_TYPE1124_UART1", 546374510, "U1", 1, "", "Output rate of the RTCM-3X-TYPE1124 message on port UART1"⟩,
  ⟨"CFG-MSGOUT-RTCM_3X_TYPE1124_UART2", 546374511, "U1", 1, "", "Output rate of the RTCM-3X-TYPE1124 message on port UART2"⟩,
  ⟨"CFG-MSGOUT-RTCM_3X_TYPE1124_USB", 546374512, "U1", 1, "", "Output rate of the RTCM-3X-TYPE1124 message on port USB"⟩,
  ⟨"CFG-MSGOUT-RTCM_3X_TYPE1127_I2C", 546374358, "U1", 1, "", "Output rate of the RTCM-3X-TYPE1127 message on port I2C"⟩,
  ⟨"CFG-MSGOUT-RTCM_3X_TYPE1127_SPI", 546374362, "U1", 1, "", "Output rate of the RTCM-3X-TYPE1127 message on port SPI"⟩,
  ⟨"CFG-MSGOUT-RTCM_3X_TYPE1127_UART1", 546374359, "U1", 1, "", "Output rate of the RTCM-3X-TYPE1127 message on port UART1"⟩,
  ⟨"CFG-MSGOUT-RTCM_3X_TYPE1127_UART2", 546374360, "U1", 1, "", "Output rate of the RTCM-3X-TYPE1127 message on port UART2"⟩,
  ⟨"CFG-MSGOUT-RTCM_3X_TYPE1127_USB", 546374361, "U1", 1, "", "Output rate of the RTCM-3X-TYPE1127 message on port USB"⟩,
  ⟨"CFG-MSGOUT-RTCM_3X_TYPE1230_I2C", 546374403, "U1", 1, "", "Output rate of the RTCM-3X-TYPE1230 message on port I2C"⟩,
  ⟨"CFG-MSGOUT-RTCM_3X_TYPE1230_SPI", 546374407, "U1", 1, "", "Output rate of the RTCM-3X-TYPE1230 message on port SPI"⟩,
  ⟨"CFG-MSGOUT-RTCM_3X_TYPE1230_UART1", 546374404, "U1", 1, "", "Output rate of the RTCM-3X-TYPE1230 message on port UART1"⟩]

/-- Entries 192-255 of the `cfgs` registry (continued). -/
def cfgsPart03 : List CfgItem := [
  ⟨"CFG-MSGOUT-RTCM_3X_TYPE1230_UART2", 546374405, "U1", 1, "", "Output rate of the RTCM-3X-TYPE1230 message on port UART2"⟩,
  ⟨"CFG-MSGOUT-RTCM_3X_TYPE1230_USB", 546374406, "U1", 1, "", "Output rate of the RTCM-3X-TYPE1230 message on port USB"⟩,
  ⟨"CFG-MSGOUT-RTCM_3X_TYPE4072_0_I2C", 546374398, "U1", 1, "", "Output rate of the RTCM-3X-TYPE4072, sub-type 0 message on port I2C"⟩,
  ⟨"CFG-MSGOUT-RTCM_3X_TYPE4072_0_SPI", 546374402, "U1", 1, "", "Output rate of the RTCM-3X-TYPE4072, sub-type 0 message on port SPI"⟩,
  ⟨"CFG-MSGOUT-RTCM_3X_TYPE4072_0_UART1", 546374399, "U1", 1, "", "Output rate of the RTCM-3X-TYPE4072, sub-type 0 message on port UART1"⟩,
  ⟨"CFG-MSGOUT-RTCM_3X_TYPE4072_0_UART2", 546374400, "U1", 1, "", "Output rate of the RTCM-3X-TYPE4072, sub-type 0 message on port UART2"⟩,
  ⟨"CFG-MSGOUT-RTCM_3X_TYPE4072_0_USB", 546374401, "U1", 1, "", "Output rate of the RTCM-3X-TYPE4072, sub-type 0 message on port USB"⟩,
  ⟨"CFG-MSGOUT-RTCM_3X_TYPE4072_1_I2C", 546374529, "U1", 1, "", "Output rate of the RTCM-3X-TYPE4072, sub-type 1 message on  port I2C"⟩,
  ⟨"CFG-MSGOUT-RTCM_3X_TYPE4072_1_SPI", 546374533, "U1", 1, "", "Output rate of the RTCM-3X-TYPE4072, sub-type 1 message on  port SPI"⟩,
  ⟨"CFG-MSGOUT-RTCM_3X_TYPE4072_1_UART1", 546374530, "U1", 1, "", "Output rate of the RTCM-3X-TYPE4072, sub-type 1 message on  port UART1"⟩,
  ⟨"CFG-MSGOUT-RTCM_3X_TYPE4072_1_UART2", 546374531, "U1", 1, "", "Output rate of the RTCM-3X-TYPE4072, sub-type 1 message on  port UART2"⟩,
  ⟨"CFG-MSGOUT-RTCM_3X_TYPE4072_1_USB", 546374532, "U1", 1, "", "Output rate of the RTCM-3X-TYPE4072, sub-type 1 message on port USB"⟩,
  ⟨"CFG-MSGOUT-UBX_LOG_INFO_I2C", 546374233, "U1", 1, "", "Output rate of the UBX-LOG-INFO message on port I2C"⟩,
  ⟨"CFG-MSGOUT-UBX_LOG_INFO_SPI", 546374237, "U1", 1, "", "Output rate of the UBX-LOG-INFO message on port SPI"⟩,
  ⟨"CFG-MSGOUT-UBX_LOG_INFO_UART1", 546374234, "U1", 1, "", "Output rate of the UBX-LOG-INFO message on port UART1"⟩,
  ⟨"CFG-MSGOUT-UBX_LOG_INFO_UART2", 546374235, "U1", 1, "", "Output rate of the UBX-LOG-INFO message on port UART2"⟩,
  ⟨"CFG-MSGOUT-UBX_LOG_INFO_USB", 546374236, "U1", 1, "", "Output rate of the UBX-LOG-INFO message on port USB"⟩,
  ⟨"CFG-MSGOUT-UBX_MON_COMMS_I2C", 546374479, "U1", 1, "", "Output rate of the UBX-MON-COMMS message on port I2C"⟩,
  ⟨"CFG-MSGOUT-UBX_MON_COMMS_SPI", 546374483, "U1", 1, "", "Output rate of the UBX-MON-COMMS message on port SPI"⟩,
  ⟨"CFG-MSGOUT-UBX_MON_COMMS_UART1", 546374480, "U1", 1, "", "Output rate of the UBX-MON-COMMS message on port UART1"⟩,
  ⟨"CFG-MSGOUT-UBX_MON_COMMS_UART2", 546374481, "U1", 1, "", "Output rate of the UBX-MON-COMMS message on port UART2"⟩,
  ⟨"CFG-MSGOUT-UBX_MON_COMMS_USB", 546374482, "U1", 1, "", "Output rate of the UBX-MON-COMMS message on port USB"⟩,
  ⟨"CFG-MSGOUT-UBX_MON_HW2_I2C", 546374073, "U1", 1, "", "Output rate of the UBX-MON-HW2 message on port I2C"⟩,
  ⟨"CFG-MSGOUT-UBX_MON_HW2_SPI", 546374077, "U1", 1, "", "Output rate of the UBX-MON-HW2 message on port SPI"⟩,
  ⟨"CFG-MSGOUT-UBX_MON_HW2_UART1", 546374074, "U1", 1, "", "Output rate of the UBX-MON-HW2 message on port UART1"⟩,
  ⟨"CFG-MSGOUT-UBX_MON_HW2_UART2", 546374075, "U1", 1, "", "Output rate of the UBX-MON-HW2 message on port UART2"⟩,
  ⟨"CFG-MSGOUT-UBX_MON_HW2_USB", 546374076, "U1", 1, "", "Output rate of the UBX-MON-HW2 message on port USB"⟩,
  ⟨"CFG-MSGOUT-UBX_MON_HW3_I2C", 546374484, "U1", 1, "", "Output rate of the UBX-MON-HW3 message on port I2C"⟩,
  ⟨"CFG-MSGOUT-UBX_MON_HW3_SPI", 546374488, "U1", 1, "", "Output rate of the UBX-MON-HW3 message on port SPI"⟩,
  ⟨"CFG-MSGOUT-UBX_MON_HW3_UART1", 546374485, "U1", 1, "", "Output rate of the UBX-MON-HW3 message on port UART1"⟩,
  ⟨"CFG-MSGOUT-UBX_MON_HW3_UART2", 546374486, "U1", 1, "", "Output rate of the UBX-MON-HW3 message on port UART2"⟩,
  ⟨"CFG-MSGOUT-UBX_MON_HW3_USB", 546374487, "U1", 1, "", "Output rate of the UBX-MON-HW3 message on port USB"⟩,
  ⟨"CFG-MSGOUT-UBX_MON_HW_I2C", 546374068, "U1", 1, "", "Output rate of the UBX-MON-HW message on port I2C"⟩,
  ⟨"CFG-MSGOUT-UBX_MON_HW_SPI", 546374072, "U1", 1, "", "Output rate of the UBX-MON-HW message on port SPI"⟩,
  ⟨"CFG-MSGOUT-UBX_MON_HW_UART1", 546374069, "U1", 1, "", "Output rate of the UBX-MON-HW message on port UART1"⟩,
  ⟨"CFG-MSGOUT-UBX_MON_HW_UART2", 546374070, "U1", 1, "", "Output rate of the UBX-MON-HW message on port UART2"⟩,
  ⟨"CFG-MSGOUT-UBX_MON_HW_USB", 546374071, "U1", 1, "", "Output rate of the UBX-MON-HW message on port USB"⟩,
  ⟨"CFG-MSGOUT-UBX_MON_IO_I2C", 546374053, "U1", 1, "", "Output rate of the UBX-MON-IO message on port I2C"⟩,
  ⟨"CFG-MSGOUT-UBX_MON_IO_SPI", 546374057, "U1", 1, "", "Output rate of the UBX-MON-IO message on port SPI"⟩,
  ⟨"CFG-MSGOUT-UBX_MON_IO_UART1", 546374054, "U1", 1, "", "Output rate of the UBX-MON-IO message on port UART1"⟩,
  ⟨"CFG-MSGOUT-UBX_MON_IO_UART2", 546374055, "U1", 1, "", "Output rate of the UBX-MON-IO message on port UART2"⟩,
  ⟨"CFG-MSGOUT-UBX_MON_IO_USB", 546374056, "U1", 1, "", "Output rate of the UBX-MON-IO message on port USB"⟩,
  ⟨"CFG-MSGOUT-UBX_MON_MSGPP_I2C", 546374038, "U1", 1, "", "Output rate of the UBX-MON-MSGPP message on port I2C"⟩,
  ⟨"CFG-MSGOUT-UBX_MON_MSGPP_SPI", 546374042, "U1", 1, "", "Output rate of the UBX-MON-MSGPP message on port SPI"⟩,
  ⟨"CFG-MSGOUT-UBX_MON_MSGPP_UART1", 546374039, "U1", 1, "", "Output rate of the UBX-MON-MSGPP message on port UART1"⟩,
  ⟨"CFG-MSGOUT-UBX_MON_MSGPP_UART2", 546374040, "U1", 1, "", "Output rate of the UBX-MON-MSGPP message on port UART2"⟩,
  ⟨"CFG-MSGOUT-UBX_MON_MSGPP_USB", 546374041, "U1", 1, "", "Output rate of the UBX-MON-MSGPP message on port USB"⟩,
  ⟨"CFG-MSGOUT-UBX_MON_RF_I2C", 546374489, "U1", 1, "", "Output rate of the UBX-MON-RF message on port I2C"⟩,
  ⟨"CFG-MSGOUT-UBX_MON_RF_SPI", 546374493, "U1", 1, "", "Output rate of the UBX-MON-RF message on port SPI"⟩,
  ⟨"CFG-MSGOUT-UBX_MON_RF_UART1", 546374490, "U1", 1, "", "Output rate of the UBX-MON-RF message on port UART1"⟩,
  ⟨"CFG-MSGOUT-UBX_MON_RF_UART2", 546374491, "U1", 1, "", "Output rate of the UBX-MON-RF message on port UART2"⟩,
  ⟨"CFG-MSGOUT-UBX_MON_RF_USB", 546374492, "U1", 1, "", "Output rate of the UBX-MON-RF message on port USB"⟩,
  ⟨"CFG-MSGOUT-UBX_MON_RXBUF_I2C", 546374048, "U1", 1, "", "Output rate of the UBX-MON-RXBUF message on port I2C"⟩,
  ⟨"CFG-MSGOUT-UBX_MON_RXBUF_SPI", 546374052, "U1", 1, "", "Output rate of the UBX-MON-RXBUF message on port SPI"⟩,
  ⟨"CFG-MSGOUT-UBX_MON_RXBUF_UART1", 546374049, "U1", 1, "", "Output rate of the UBX-MON-RXBUF message on port UART1"⟩,
  ⟨"CFG-MSGOUT-UBX_MON_RXBUF_UART2", 546374050, "U1", 1, "", "Output rate of the UBX-MON-RXBUF message on port UART2"⟩,
  ⟨"CFG-MSGOUT-UBX_MON_RXBUF_USB", 546374051, "U1", 1, "", "Output rate of the UBX-MON-RXBUF message on port USB"⟩,
  ⟨"CFG-MSGOUT-UBX_MON_RXR_I2C", 546374023, "U1", 1, "", "Output rate of the UBX-MON-RXR message on port I2C"⟩,
  ⟨"CFG-MSGOUT-UBX_MON_RXR_SPI", 546374027, "U1", 1, "", "Output rate of the UBX-MON-RXR message on port SPI"⟩,
  ⟨"CFG-MSGOUT-UBX_MON_RXR_UART1", 546374024, "U1", 1, "", "Output rate of the UBX-MON-RXR message on port UART1"⟩,
  ⟨"CFG-MSGOUT-UBX_MON_RXR_UART2", 546374025, "U1", 1, "", "Output rate of the UBX-MON-RXR message on port UART2"⟩,
  ⟨"CFG-MSGOUT-UBX_MON_RXR_USB", 546374026, "U1", 1, "", "Output rate of the UBX-MON-RXR message on port USB"⟩,
  ⟨"CFG-MSGOUT-UBX_MON_TXBUF_I2C", 546374043, "U1", 1, "", "Output rate of the UBX-MON-TXBUF message on port I2C"⟩,
  ⟨"CFG-MSGOUT-UBX_MON_TXBUF_SPI", 546374047, "U1", 1, "", "Output rate of the UBX-MON-TXBUF message on port SPI"⟩]

/-- Entries 256-319 of the `cfgs` registry (continued). -/
def cfgsPart04 : List CfgItem := [
  ⟨"CFG-MSGOUT-UBX_MON_TXBUF_UART1", 546374044, "U1", 1, "", "Output rate of the UBX-MON-TXBUF message on port UART1"⟩,
  ⟨"CFG-MSGOUT-UBX_MON_TXBUF_UART2", 546374045, "U1", 1, "", "Output rate of the UBX-MON-TXBUF message on port UART2"⟩,
  ⟨"CFG-MSGOUT-UBX_MON_TXBUF_USB", 546374046, "U1", 1, "", "Output rate of the UBX-MON-TXBUF message on port USB"⟩,
  ⟨"CFG-MSGOUT-UBX_MON_TXBUF_I2C", 546374043, "U1", 1, "", "Output rate of the UBX-MON-TXBUF message on port I2C"⟩,
  ⟨"CFG-MSGOUT-UBX_MON_TXBUF_SPI", 546374047, "U1", 1, "", "Output rate of the UBX-MON-TXBUF message on port SPI"⟩,
  ⟨"CFG-MSGOUT-UBX_MON_TXBUF_UART1", 546374044, "U1", 1, "", "Output rate of the UBX-MON-TXBUF message on port UART1"⟩,
  ⟨"CFG-MSGOUT-UBX_MON_TXBUF_UART2", 546374045, "U1", 1, "", "Output rate of the UBX-MON-TXBUF message on port UART2"⟩,
  ⟨"CFG-MSGOUT-UBX_MON_TXBUF_USB", 546374046, "U1", 1, "", "Output rate of the UBX-MON-TXBUF message on port USB"⟩,
  ⟨"CFG-MSGOUT-UBX_NAV_CLOCK_I2C", 546373733, "U1", 1, "", "Output rate of the UBX-NAV-CLOCK message on port I2C"⟩,
  ⟨"CFG-MSGOUT-UBX_NAV_CLOCK_SPI", 546373737, "U1", 1, "", "Output rate of the UBX-NAV-CLOCK message on port SPI"⟩,
  ⟨"CFG-MSGOUT-UBX_NAV_CLOCK_UART1", 546373734, "U1", 1, "", "Output rate of the UBX-NAV-CLOCK message on port UART1"⟩,
  ⟨"CFG-MSGOUT-UBX_NAV_CLOCK_UART2", 546373735, "U1", 1, "", "Output rate of the UBX-NAV-CLOCK message on port UART2"⟩,
  ⟨"CFG-MSGOUT-UBX_NAV_CLOCK_USB", 546373736, "U1", 1, "", "Output rate of the UBX-NAV- CLOCK message on port USB"⟩,
  ⟨"CFG-MSGOUT-UBX_NAV_DOP_I2C", 546373688, "U1", 1, "", "Output rate of the UBX-NAV-DOP message on port I2C"⟩,
  ⟨"CFG-MSGOUT-UBX_NAV_DOP_SPI", 546373692, "U1", 1, "", "Output rate of the UBX-NAV-DOP message on port SPI"⟩,
  ⟨"CFG-MSGOUT-UBX_NAV_DOP_UART1", 546373689, "U1", 1, "", "Output rate of the UBX-NAV-DOP message on port UART1"⟩,
  ⟨"CFG-MSGOUT-UBX_NAV_DOP_UART2", 546373690, "U1", 1, "", "Output rate of the UBX-NAV-DOP message on port UART2"⟩,
  ⟨"CFG-MSGOUT-UBX_NAV_DOP_USB", 546373691, "U1", 1, "", "Output rate of the UBX-NAV-DOP message on port USB"⟩,
  ⟨"CFG-MSGOUT-UBX_NAV_EOE_I2C", 546373983, "U1", 1, "", "Output rate of the UBX-NAV-EOE message on port I2C"⟩,
  ⟨"CFG-MSGOUT-UBX_NAV_EOE_SPI", 546373987, "U1", 1, "", "Output rate of the UBX-NAV-EOE message on port SPI"⟩,
  ⟨"CFG-MSGOUT-UBX_NAV_EOE_UART1", 546373984, "U1", 1, "", "Output rate of the UBX-NAV-EOE message on port UART1"⟩,
  ⟨"CFG-MSGOUT-UBX_NAV_EOE_UART2", 546373985, "U1", 1, "", "Output rate of the UBX-NAV-EOE message on port UART2"⟩,
  ⟨"CFG-MSGOUT-UBX_NAV_EOE_USB", 546373986, "U1", 1, "", "Output rate of the UBX-NAV-EOE message on port USB"⟩,
  ⟨"CFG-MSGOUT-UBX_NAV_GEOFENCE_I2C", 546373793, "U1", 1, "", "Output rate of the UBX-NAV-GEOFENCE message on port I2C"⟩,
  ⟨"CFG-MSGOUT-UBX_NAV_GEOFENCE_SPI", 546373797, "U1", 1, "", "Output rate of the UBX-NAV-GEOFENCE message on port SPI"⟩,
  ⟨"CFG-MSGOUT-UBX_NAV_GEOFENCE_UART1", 546373794, "U1", 1, "", "Output rate of the UBX-NAV-GEOFENCE message on port UART1"⟩,
  ⟨"CFG-MSGOUT-UBX_NAV_GEOFENCE_UART2", 546373795, "U1", 1, "", "Output rate of the UBX-NAV-GEOFENCE message on port UART2"⟩,
  ⟨"CFG-MSGOUT-UBX_NAV_GEOFENCE_USB", 546373796, "U1", 1, "", "Output rate of the UBX-NAV- GEOFENCE message on port USB"⟩,
  ⟨"CFG-MSGOUT-UBX_NAV_HPPOSECEF_I2C", 546373678, "U1", 1, "", "Output rate of the UBX-NAV-HPPOSECEF message on port I2C"⟩,
  ⟨"CFG-MSGOUT-UBX_NAV_HPPOSECEF_SPI", 546373682, "U1", 1, "", "Output rate of the UBX-NAV-HPPOSECEF message on port SPI"⟩,
  ⟨"CFG-MSGOUT-UBX_NAV_HPPOSECEF_UART1", 546373679, "U1", 1, "", "Output rate of the UBX-NAV-HPPOSECEF message on port UART1"⟩,
  ⟨"CFG-MSGOUT-UBX_NAV_HPPOSECEF_UART2", 546373680, "U1", 1, "", "Output rate of the UBX-NAV-HPPOSECEF message on port UART2"⟩,
  ⟨"CFG-MSGOUT-UBX_NAV_HPPOSECEF_USB", 546373681, "U1", 1, "", "Output rate of the UBX-NAV-HPPOSECEF message on port USB"⟩,
  ⟨"CFG-MSGOUT-UBX_NAV_HPPOSLLH_I2C", 546373683, "U1", 1, "", "Output rate of the UBX-NAV-HPPOSLLH message on port I2C"⟩,
  ⟨"CFG-MSGOUT-UBX_NAV_HPPOSLLH_SPI", 546373687, "U1", 1, "", "Output rate of the UBX-NAV-HPPOSLLH message on port SPI"⟩,
  ⟨"CFG-MSGOUT-UBX_NAV_HPPOSLLH_UART1", 546373684, "U1", 1, "", "Output rate of the UBX-NAV-HPPOSLLH message on port UART1"⟩,
  ⟨"CFG-MSGOUT-UBX_NAV_HPPOSLLH_UART2", 546373685, "U1", 1, "", "Output rate of the UBX-NAV-HPPOSLLH message on port UART2"⟩,
  ⟨"CFG-MSGOUT-UBX_NAV_HPPOSLLH_USB", 546373686, "U1", 1, "", "Output rate of the UBX-NAV-HPPOSLLH message on port USB"⟩,
  ⟨"CFG-MSGOUT-UBX_NAV_ODO_I2C", 546373758, "U1", 1, "", "Output rate of the UBX-NAV-ODO message on port I2C"⟩,
  ⟨"CFG-MSGOUT-UBX_NAV_ODO_SPI", 546373762, "U1", 1, "", "Output rate of the UBX-NAV-ODO message on port SPI"⟩,
  ⟨"CFG-MSGOUT-UBX_NAV_ODO_UART1", 546373759, "U1", 1, "", "Output rate of the UBX-NAV-ODO message on port UART1"⟩,
  ⟨"CFG-MSGOUT-UBX_NAV_ODO_UART2", 546373760, "U1", 1, "", "Output rate of the UBX-NAV-ODO message on port UART2"⟩,
  ⟨"CFG-MSGOUT-UBX_NAV_ODO_USB", 546373761, "U1", 1, "", "Output rate of the UBX-NAV-ODO message on port USB"⟩,
  ⟨"CFG-MSGOUT-UBX_NAV_ORB_I2C", 546373648, "U1", 1, "", "Output rate of the UBX-NAV-ORB message on port I2C"⟩,
  ⟨"CFG-MSGOUT-UBX_NAV_ORB_SPI", 546373652, "U1", 1, "", "Output rate of the UBX-NAV-ORB message on port SPI"⟩,
  ⟨"CFG-MSGOUT-UBX_NAV_ORB_UART1", 546373649, "U1", 1, "", "Output rate of the UBX-NAV-ORB message on port UART1"⟩,
  ⟨"CFG-MSGOUT-UBX_NAV_ORB_UART2", 546373650, "U1", 1, "", "Output rate of the UBX-NAV-ORB message on port UART2"⟩,
  ⟨"CFG-MSGOUT-UBX_NAV_ORB_USB", 546373651, "U1", 1, "", "Output rate of the UBX-NAV-ORB message on port USB"⟩,
  ⟨"CFG-MSGOUT-UBX_NAV_POSECEF_I2C", 546373668, "U1", 1, "", "Output rate of the UBX-NAV-POSECEF message on port I2C"⟩,
  ⟨"CFG-MSGOUT-UBX_NAV_POSECEF_SPI", 546373672, "U1", 1, "", "Output rate of the UBX-NAV-POSECEF message on port SPI"⟩,
  ⟨"CFG-MSGOUT-UBX_NAV_POSECEF_UART1", 546373669, "U1", 1, "", "Output rate of the UBX-NAV-POSECEF message on port UART1"⟩,
  ⟨"CFG-MSGOUT-UBX_NAV_POSECEF_UART2", 546373670, "U1", 1, "", "Output rate of the UBX-NAV-POSECEF message on port UART2"⟩,
  ⟨"CFG-MSGOUT-UBX_NAV_POSECEF_USB", 546373671, "U1", 1, "", "Output rate of the UBX-NAV-POSECEF message on port USB"⟩,
  ⟨"CFG-MSGOUT-UBX_NAV_POSLLH_I2C", 546373673, "U1", 1, "", "Output rate of the UBX-NAV-POSLLH message on port I2C"⟩,
  ⟨"CFG-MSGOUT-UBX_NAV_POSLLH_SPI", 546373677, "U1", 1, "", "Output rate of the UBX-NAV-POSLLH message on port SPI"⟩,
  ⟨"CFG-MSGOUT-UBX_NAV_POSLLH_UART1", 546373674, "U1", 1, "", "Output rate of the UBX-NAV-POSLLH message on port UART1"⟩,
  ⟨"CFG-MSGOUT-UBX_NAV_POSLLH_UART2", 546373675, "U1", 1, "", "Output rate of the UBX-NAV-POSLLH message on port UART2"⟩,
  ⟨"CFG-MSGOUT-UBX_NAV_POSLLH_USB", 546373676, "U1", 1, "", "Output rate of the UBX-NAV-POSLLH message on port USB"⟩,
  ⟨"CFG-MSGOUT-UBX_NAV_PVT_I2C", 546373638, "U1", 1, "", "Output rate of the UBX-NAV-PVT message on port I2C"⟩,
  ⟨"CFG-MSGOUT-UBX_NAV_PVT_SPI", 546373642, "U1", 1, "", "Output rate of the UBX-NAV-PVT message on port SPI"⟩,
  ⟨"CFG-MSGOUT-UBX_NAV_PVT_UART1", 546373639, "U1", 1, "", "Output rate of the UBX-NAV-PVT message on port UART1"⟩,
  ⟨"CFG-MSGOUT-UBX_NAV_PVT_UART2", 546373640, "U1", 1, "", "Output rate of the UBX-NAV-PVT message on port UART2"⟩,
  ⟨"CFG-MSGOUT-UBX_NAV_PVT_USB", 546373641, "U1", 1, "", "Output rate of the UBX-NAV-PVT message on port USB"⟩,
  ⟨"CFG-MSGOUT-UBX_NAV_RELPOSNED_I2C", 546373773, "U1", 1, "", "Output rate of the UBX-NAV-RELPOSNED message on port I2C"⟩]

/-- Entries 320-383 of the `cfgs` registry (continued). -/
def cfgsPart05 : List CfgItem := [
  ⟨"CFG-MSGOUT-UBX_NAV_RELPOSNED_SPI", 546373777, "U1", 1, "", "Output rate of the UBX-NAV-RELPOSNED message on port SPI"⟩,
  ⟨"CFG-MSGOUT-UBX_NAV_RELPOSNED_UART1", 546373774, "U1", 1, "", "Output rate of the UBX-NAV-RELPOSNED message on port UART1"⟩,
  ⟨"CFG-MSGOUT-UBX_NAV_RELPOSNED_UART2", 546373775, "U1", 1, "", "Output rate of the UBX-NAV-RELPOSNED message on port UART2"⟩,
  ⟨"CFG-MSGOUT-UBX_NAV_RELPOSNED_USB", 546373776, "U1", 1, "", "Output rate of the UBX-NAV-RELPOSNED message on port USB"⟩,
  ⟨"CFG-MSGOUT-UBX_NAV_SAT_I2C", 546373653, "U1", 1, "", "Output rate of the UBX-NAV-SAT message on port I2C"⟩,
  ⟨"CFG-MSGOUT-UBX_NAV_SAT_SPI", 546373657, "U1", 1, "", "Output rate of the UBX-NAV-SAT message on port SPI"⟩,
  ⟨"CFG-MSGOUT-UBX_NAV_SAT_UART1", 546373654, "U1", 1, "", "Output rate of the UBX-NAV-SAT message on port UART1"⟩,
  ⟨"CFG-MSGOUT-UBX_NAV_SAT_UART2", 546373655, "U1", 1, "", "Output rate of the UBX-NAV-SAT message on port UART2"⟩,
  ⟨"CFG-MSGOUT-UBX_NAV_SAT_USB", 546373656, "U1", 1, "", "Output rate of the UBX-NAV-SAT message on port USB"⟩,
  ⟨"CFG-MSGOUT-UBX_NAV_SBAS_I2C", 546373738, "U1", 1, "", "Output rate of the UBX-NAV-SBAS message on port I2C"⟩,
  ⟨"CFG-MSGOUT-UBX_NAV_SBAS_SPI", 546373742, "U1", 1, "", "Output rate of the UBX-NAV-SBAS message on port SPI"⟩,
  ⟨"CFG-MSGOUT-UBX_NAV_SBAS_UART1", 546373739, "U1", 1, "", "Output rate of the UBX-NAV-SBAS message on port UART1"⟩,
  ⟨"CFG-MSGOUT-UBX_NAV_SBAS_UART2", 546373740, "U1", 1, "", "Output rate of the UBX-NAV-SBAS message on port UART2"⟩,
  ⟨"CFG-MSGOUT-UBX_NAV_SBAS_USB", 546373741, "U1", 1, "", "Output rate of the UBX-NAV-SBAS message on port USB"⟩,
  ⟨"CFG-MSGOUT-UBX_NAV_SIG_I2C", 546374469, "U1", 1, "", "Output rate of the UBX-NAV-SIG message on port I2C"⟩,
  ⟨"CFG-MSGOUT-UBX_NAV_SIG_SPI", 546374473, "U1", 1, "", "Output rate of the UBX-NAV-SIG message on port SPI"⟩,
  ⟨"CFG-MSGOUT-UBX_NAV_SIG_UART1", 546374470, "U1", 1, "", "Output rate of the UBX-NAV-SIG message on port UART1"⟩,
  ⟨"CFG-MSGOUT-UBX_NAV_SIG_UART2", 546374471, "U1", 1, "", "Output rate of the UBX-NAV-SIG message on port UART2"⟩,
  ⟨"CFG-MSGOUT-UBX_NAV_SIG_USB", 546374472, "U1", 1, "", "Output rate of the UBX-NAV-SIG message on port USB"⟩,
  ⟨"CFG-MSGOUT-UBX_NAV_STATUS_I2C", 546373658, "U1", 1, "", "Output rate of the UBX-NAV-STATUS message on port I2C"⟩,
  ⟨"CFG-MSGOUT-UBX_NAV_STATUS_SPI", 546373662, "U1", 1, "", "Output rate of the UBX-NAV-STATUS message on port SPI"⟩,
  ⟨"CFG-MSGOUT-UBX_NAV_STATUS_UART1", 546373659, "U1", 1, "", "Output rate of the UBX-NAV-STATUS message on port UART1"⟩,
  ⟨"CFG-MSGOUT-UBX_NAV_STATUS_UART2", 546373660, "U1", 1, "", "Output rate of the UBX-NAV-STATUS message on port UART2"⟩,
  ⟨"CFG-MSGOUT-UBX_NAV_STATUS_USB", 546373661, "U1", 1, "", "Output rate of the UBX-NAV-STATUS message on port USB"⟩,
  ⟨"CFG-MSGOUT-UBX_NAV_SVIN_I2C", 546373768, "U1", 1, "", "Output rate of the UBX-NAV-SVIN message on port I2C"⟩,
  ⟨"CFG-MSGOUT-UBX_NAV_SVIN_SPI", 546373772, "U1", 1, "", "Output rate of the UBX-NAV-SVIN message on port SPI"⟩,
  ⟨"CFG-MSGOUT-UBX_NAV_SVIN_UART1", 546373769, "U1", 1, "", "Output rate of the UBX-NAV-SVIN message on port UART1"⟩,
  ⟨"CFG-MSGOUT-UBX_NAV_SVIN_UART2", 546373770, "U1", 1, "", "Output rate of the UBX-NAV-SVIN message on port UART2"⟩,
  ⟨"CFG-MSGOUT-UBX_NAV_SVIN_USB", 546373771, "U1", 1, "", "Output rate of the UBX-NAV-SVIN message on port USB"⟩,
  ⟨"CFG-MSGOUT-UBX_NAV_TIMEBDS_I2C", 546373713, "U1", 1, "", "Output rate of the UBX-NAV-TIMEBDS message on port I2C"⟩,
  ⟨"CFG-MSGOUT-UBX_NAV_TIMEBDS_SPI", 546373717, "U1", 1, "", "Output rate of the UBX-NAV-TIMEBDS message on port SPI"⟩,
  ⟨"CFG-MSGOUT-UBX_NAV_TIMEBDS_UART1", 546373714, "U1", 1, "", "Output rate of the UBX-NAV-TIMEBDS message on port UART1"⟩,
  ⟨"CFG-MSGOUT-UBX_NAV_TIMEBDS_UART2", 546373715, "U1", 1, "", "Output rate of the UBX-NAV-TIMEBDS message on port UART2"⟩,
  ⟨"CFG-MSGOUT-UBX_NAV_TIMEBDS_USB", 546373716, "U1", 1, "", "Output rate of the UBX-NAV-TIMEBDS message on port USB"⟩,
  ⟨"CFG-MSGOUT-UBX_NAV_TIMEGAL_I2C", 546373718, "U1", 1, "", "Output rate of the UBX-NAV-TIMEGAL message on port I2C"⟩,
  ⟨"CFG-MSGOUT-UBX_NAV_TIMEGAL_SPI", 546373722, "U1", 1, "", "Output rate of the UBX-NAV-TIMEGAL message on port SPI"⟩,
  ⟨"CFG-MSGOUT-UBX_NAV_TIMEGAL_UART1", 546373719, "U1", 1, "", "Output rate of the UBX-NAV-TIMEGAL message on port UART1"⟩,
  ⟨"CFG-MSGOUT-UBX_NAV_TIMEGAL_UART2", 546373720, "U1", 1, "", "Output rate of the UBX-NAV-TIMEGAL message on port UART2"⟩,
  ⟨"CFG-MSGOUT-UBX_NAV_TIMEGAL_USB", 546373721, "U1", 1, "", "Output rate of the UBX-NAV-TIMEGAL message on port USB"⟩,
  ⟨"CFG-MSGOUT-UBX_NAV_TIMEGLO_I2C", 546373708, "U1", 1, "", "Output rate of the UBX-NAV-TIMEGLO message on port I2C"⟩,
  ⟨"CFG-MSGOUT-UBX_NAV_TIMEGLO_SPI", 546373712, "U1", 1, "", "Output rate of the UBX-NAV-TIMEGLO message on port SPI"⟩,
  ⟨"CFG-MSGOUT-UBX_NAV_TIMEGLO_UART1", 546373709, "U1", 1, "", "Output rate of the UBX-NAV-TIMEGLO message on port UART1"⟩,
  ⟨"CFG-MSGOUT-UBX_NAV_TIMEGLO_UART2", 546373710, "U1", 1, "", "Output rate of the UBX-NAV-TIMEGLO message on port UART2"⟩,
  ⟨"CFG-MSGOUT-UBX_NAV_TIMEGLO_USB", 546373711, "U1", 1, "", "Output rate of the UBX-NAV-TIMEGLO message on port USB"⟩,
  ⟨"CFG-MSGOUT-UBX_NAV_TIMEGPS_I2C", 546373703, "U1", 1, "", "Output rate of the UBX-NAV-TIMEGPS message on port I2C"⟩,
  ⟨"CFG-MSGOUT-UBX_NAV_TIMEGPS_SPI", 546373707, "U1", 1, "", "Output rate of the UBX-NAV-TIMEGPS message on port SPI"⟩,
  ⟨"CFG-MSGOUT-UBX_NAV_TIMEGPS_UART1", 546373704, "U1", 1, "", "Output rate of the UBX-NAV-TIMEGPS message on port UART1"⟩,
  ⟨"CFG-MSGOUT-UBX_NAV_TIMEGPS_UART2", 546373705, "U1", 1, "", "Output rate of the UBX-NAV-TIMEGPS message on port UART2"⟩,
  ⟨"CFG-MSGOUT-UBX_NAV_TIMEGPS_USB", 546373706, "U1", 1, "", "Output rate of the UBX-NAV-TIMEGPS message on port USB"⟩,
  ⟨"CFG-MSGOUT-UBX_NAV_TIMELS_I2C", 546373728, "U1", 1, "", "Output rate of the UBX-NAV-TIMELS message on port I2C"⟩,
  ⟨"CFG-MSGOUT-UBX_NAV_TIMELS_SPI", 546373732, "U1", 1, "", "Output rate of the UBX-NAV-TIMELS message on port SPI"⟩,
  ⟨"CFG-MSGOUT-UBX_NAV_TIMELS_UART1", 546373729, "U1", 1, "", "Output rate of the UBX-NAV-TIMELS message on port UART1"⟩,
  ⟨"CFG-MSGOUT-UBX_NAV_TIMELS_UART2", 546373730, "U1", 1, "", "Output rate of the UBX-NAV-TIMELS message on port UART2"⟩,
  ⟨"CFG-MSGOUT-UBX_NAV_TIMELS_USB", 546373731, "U1", 1, "", "Output rate of the UBX-NAV-TIMELS message on port USB"⟩,
  ⟨"CFG-MSGOUT-UBX_NAV_TIMEUTC_I2C", 546373723, "U1", 1, "", "Output rate of the UBX-NAV-TIMEUTC message on port I2C"⟩,
  ⟨"CFG-MSGOUT-UBX_NAV_TIMEUTC_SPI", 546373727, "U1", 1, "", "Output rate of the UBX-NAV-TIMEUTC message on port S"⟩,
  ⟨"CFG-MSGOUT-UBX_NAV_TIMEUTC_UART1", 546373724, "U1", 1, "", "Output rate of the UBX-NAV-TIMEUTC message on port UART1"⟩,
  ⟨"CFG-MSGOUT-UBX_NAV_TIMEUTC_UART2", 546373725, "U1", 1, "", "Output rate of the UBX-NAV-TIMEUTC message on port UART2"⟩,
  ⟨"CFG-MSGOUT-UBX_NAV_TIMEUTC_USB", 546373726, "U1", 1, "", "Output rate of the UBX-NAV- TIMEUTC message on port USB"⟩,
  ⟨"CFG-MSGOUT-UBX_NAV_VELECEF_I2C", 546373693, "U1", 1, "", "Output rate of the UBX-NAV-VELECEF message on port I2C"⟩,
  ⟨"CFG-MSGOUT-UBX_NAV_VELECEF_SPI", 546373697, "U1", 1, "", "Output rate of the UBX-NAV-VELECEF message on port SPI"⟩,
  ⟨"CFG-MSGOUT-UBX_NAV_VELECEF_UART1", 546373694, "U1", 1, "", "Output rate of the UBX-NAV-VELECEF message on port UART1"⟩,
  ⟨"CFG-MSGOUT-UBX_NAV_VELECEF_UART2", 546373695, "U1", 1, "", "Output rate of the UBX-NAV-VELECEF message on port UART2"⟩,
  ⟨"CFG-MSGOUT-UBX_NAV_VELECEF_USB", 546373696, "U1", 1, "", "Output rate of the UBX-NAV-VELECEF message on port USB"⟩]

/-- Entries 384-447 of the `cfgs` registry (continued). -/
def cfgsPart06 : List CfgItem := [
  ⟨"CFG-MSGOUT-UBX_NAV_VELNED_I2C", 546373698, "U1", 1, "", "Output rate of the UBX-NAV-VELNED message on port I2C"⟩,
  ⟨"CFG-MSGOUT-UBX_NAV_VELNED_SPI", 546373702, "U1", 1, "", "Output rate of the UBX-NAV-VELNED message on port SPI"⟩,
  ⟨"CFG-MSGOUT-UBX_NAV_VELNED_UART1", 546373699, "U1", 1, "", "Output rate of the UBX-NAV-VELNED message on port UART1"⟩,
  ⟨"CFG-MSGOUT-UBX_NAV_VELNED_UART2", 546373700, "U1", 1, "", "Output rate of the UBX-NAV-VELNED message on port UART2"⟩,
  ⟨"CFG-MSGOUT-UBX_NAV_VELNED_USB", 546373701, "U1", 1, "", "Output rate of the UBX-NAV-VELNED message on port USB"⟩,
  ⟨"CFG-MSGOUT-UBX_RXM_MEASX_I2C", 546374148, "U1", 1, "", "Output rate of the UBX-RXM-MEASX message on port I2C"⟩,
  ⟨"CFG-MSGOUT-UBX_RXM_MEASX_SPI", 546374152, "U1", 1, "", "Output rate of the UBX-RXM-MEASX message on port SPI"⟩,
  ⟨"CFG-MSGOUT-UBX_RXM_MEASX_UART1", 546374149, "U1", 1, "", "Output rate of the UBX-RXM-MEASX message on port UART1"⟩,
  ⟨"CFG-MSGOUT-UBX_RXM_MEASX_UART2", 546374150, "U1", 1, "", "Output rate of the UBX-RXM-MEASX message on port UART2"⟩,
  ⟨"CFG-MSGOUT-UBX_RXM_MEASX_USB", 546374151, "U1", 1, "", "Output rate of the UBX-RXM-MEASX message on port USB"⟩,
  ⟨"CFG-MSGOUT-UBX_RXM_RAWX_I2C", 546374308, "U1", 1, "", "Output rate of the UBX-RXM-RAWX message on port I2C"⟩,
  ⟨"CFG-MSGOUT-UBX_RXM_RAWX_SPI", 546374312, "U1", 1, "", "Output rate of the UBX-RXM-RAWX message on port SPI"⟩,
  ⟨"CFG-MSGOUT-UBX_RXM_RAWX_UART1", 546374309, "U1", 1, "", "Output rate of the UBX-RXM-RAWX message on port UART1"⟩,
  ⟨"CFG-MSGOUT-UBX_RXM_RAWX_UART2", 546374310, "U1", 1, "", "Output rate of the UBX-RXM-RAWX message on port UART2"⟩,
  ⟨"CFG-MSGOUT-UBX_RXM_RAWX_USB", 546374311, "U1", 1, "", "Output rate of the UBX-RXM-RAWX message on port USB"⟩,
  ⟨"CFG-MSGOUT-UBX_RXM_RLM_I2C", 546374238, "U1", 1, "", "Output rate of the UBX-RXM-RLM message on port I2C"⟩,
  ⟨"CFG-MSGOUT-UBX_RXM_RLM_SPI", 546374242, "U1", 1, "", "Output rate of the UBX-RXM-RLM message on port SPI"⟩,
  ⟨"CFG-MSGOUT-UBX_RXM_RLM_UART1", 546374239, "U1", 1, "", "Output rate of the UBX-RXM-RLM message on port UART1"⟩,
  ⟨"CFG-MSGOUT-UBX_RXM_RLM_UART2", 546374240, "U1", 1, "", "Output rate of the UBX-RXM-RLM message on port UART2"⟩,
  ⟨"CFG-MSGOUT-UBX_RXM_RLM_USB", 546374241, "U1", 1, "", "Output rate of the UBX-RXM-RLM message on port USB"⟩,
  ⟨"CFG-MSGOUT-UBX_RXM_RTCM_I2C", 546374248, "U1", 1, "", "Output rate of the UBX-RXM-RTCM message on port I2C"⟩,
  ⟨"CFG-MSGOUT-UBX_RXM_RTCM_SPI", 546374252, "U1", 1, "", "Output rate of the UBX-RXM-RTCM message on port SPI"⟩,
  ⟨"CFG-MSGOUT-UBX_RXM_RTCM_UART1", 546374249, "U1", 1, "", "Output rate of the UBX-RXM-RTCM message on port UART1"⟩,
  ⟨"CFG-MSGOUT-UBX_RXM_RTCM_UART2", 546374250, "U1", 1, "", "Output rate of the UBX-RXM-RTCM message on port UART2"⟩,
  ⟨"CFG-MSGOUT-UBX_RXM_RTCM_USB", 546374251, "U1", 1, "", "Output rate of the UBX-RXM-RTCM message on port USB"⟩,
  ⟨"CFG-MSGOUT-UBX_RXM_SFRBX_I2C", 546374193, "U1", 1, "", "Output rate of the UBX-RXM-SFRBX message on port I2C"⟩,
  ⟨"CFG-MSGOUT-UBX_RXM_SFRBX_SPI", 546374197, "U1", 1, "", "Output rate of the UBX-RXM-SFRBX message on port SPI"⟩,
  ⟨"CFG-MSGOUT-UBX_RXM_SFRBX_UART1", 546374194, "U1", 1, "", "Output rate of the UBX-RXM-SFRBX message on port UART1"⟩,
  ⟨"CFG-MSGOUT-UBX_RXM_SFRBX_UART2", 546374195, "U1", 1, "", "Output rate of the UBX-RXM-SFRBX message on port UART2"⟩,
  ⟨"CFG-MSGOUT-UBX_RXM_SFRBX_USB", 546374196, "U1", 1, "", "Output rate of the UBX-RXM-SFRBX message on port USB"⟩,
  ⟨"CFG-MSGOUT-UBX_TIM_SVIN_I2C", 546373783, "U1", 1, "", "Output rate of the UBX-TIM-SVIN message on port I2C"⟩,
  ⟨"CFG-MSGOUT-UBX_TIM_SVIN_SPI", 546373787, "U1", 1, "", "Output rate of the UBX-TIM-SVIN message on port SPI"⟩,
  ⟨"CFG-MSGOUT-UBX_TIM_SVIN_UART1", 546373784, "U1", 1, "", "Output rate of the UBX-TIM-SVIN message on port UART1"⟩,
  ⟨"CFG-MSGOUT-UBX_TIM_SVIN_UART2", 546373785, "U1", 1, "", "Output rate of the UBX-TIM-SVIN message on port UART2"⟩,
  ⟨"CFG-MSGOUT-UBX_TIM_SVIN_USB", 546373786, "U1", 1, "", "Output rate of the UBX-TIM-SVIN message on port USB"⟩,
  ⟨"CFG-MSGOUT-UBX_TIM_TM2_I2C", 546374008, "U1", 1, "", "Output rate of the UBX-TIM-TM2 message on port I2C"⟩,
  ⟨"CFG-MSGOUT-UBX_TIM_TM2_SPI", 546374012, "U1", 1, "", "Output rate of the UBX-TIM-TM2 message on port SPI"⟩,
  ⟨"CFG-MSGOUT-UBX_TIM_TM2_UART1", 546374009, "U1", 1, "", "Output rate of the UBX-TIM-TM2 message on port UART1"⟩,
  ⟨"CFG-MSGOUT-UBX_TIM_TM2_UART2", 546374010, "U1", 1, "", "Output rate of the UBX-TIM-TM2 message on port UART2"⟩,
  ⟨"CFG-MSGOUT-UBX_TIM_TM2_USB", 546374011, "U1", 1, "", "Output rate of the UBX-TIM-TM2 message on port USB"⟩,
  ⟨"CFG-MSGOUT-UBX_TIM_TP_I2C", 546374013, "U1", 1, "", "Output rate of the UBX-TIM-TP message on port I2C"⟩,
  ⟨"CFG-MSGOUT-UBX_TIM_TP_SPI", 546374017, "U1", 1, "", "Output rate of the UBX-TIM-TP message on port SPI"⟩,
  ⟨"CFG-MSGOUT-UBX_TIM_TP_UART1", 546374014, "U1", 1, "", "Output rate of the UBX-TIM-TP message on port UART1"⟩,
  ⟨"CFG-MSGOUT-UBX_TIM_TP_UART2", 546374015, "U1", 1, "", "Output rate of the UBX-TIM-TP message on port UART2"⟩,
  ⟨"CFG-MSGOUT-UBX_TIM_TP_USB", 546374016, "U1", 1, "", "Output rate of the UBX-TIM-TP message on port USB"⟩,
  ⟨"CFG-MSGOUT-UBX_TIM_VRFY_I2C", 546373778, "U1", 1, "", "Output rate of the UBX-TIM-VRFY message on port I2C"⟩,
  ⟨"CFG-MSGOUT-UBX_TIM_VRFY_SPI", 546373782, "U1", 1, "", "Output rate of the UBX-TIM-VRFY message on port SPI"⟩,
  ⟨"CFG-MSGOUT-UBX_TIM_VRFY_UART1", 546373779, "U1", 1, "", "Output rate of the UBX-TIM-VRFY message on port UART1"⟩,
  ⟨"CFG-MSGOUT-UBX_TIM_VRFY_UART2", 546373780, "U1", 1, "", "Output rate of the UBX-TIM-VRFY message on port UART2"⟩,
  ⟨"CFG-MSGOUT-UBX_TIM_VRFY_USB", 546373781, "U1", 1, "", "Output rate of the UBX-TIM-VRFY message on port USB"⟩,
  ⟨"CFG-NAVHPG-DGNSSMODE", 538181649, "E1", 1, "", "Differential corrections mode"⟩,
  ⟨"CFG-NAVSPG-FIXMODE", 537985041, "E1", 1, "", "Position fix mode"⟩,
  ⟨"CFG-NAVSPG-INIFIX3D", 269549587, "L", 1, "", "Initial fix must be a 3d fix"⟩,
  ⟨"CFG-NAVSPG-WKNROLLOVER", 806420503, "U2", 1, "", "GPS week rollover number"⟩,
  ⟨"CFG-NAVSPG-USE_PPP", 269549593, "L", 1, "", "Use Precise Point Positioning"⟩,
  ⟨"CFG-NAVSPG-UTCSTANDARD", 537985052, "E1", 1, "", "UTC standard to be used"⟩,
  ⟨"CFG-NAVSPG-DYNMODEL", 537985057, "E1", 1, "", "Dynamic platform model"⟩,
  ⟨"CFG-NAVSPG-ACKAIDING", 269549605, "L", 1, "", "Acknowledge assistance input messages"⟩,
  ⟨"CFG-NAVSPG-USE_USRDAT", 269549665, "L", 1, "", "Use user geodetic datum"⟩,
  ⟨"CFG-NAVSPG-USRDAT_MAJA", 1343291490, "R8", 1, "m", "Geodetic datum semi-major axis"⟩,
  ⟨"CFG-NAVSPG-USRDAT_FLAT", 1343291491, "R8", 1, "", "Geodetic datum 1.0 / flattening"⟩,
  ⟨"CFG-NAVSPG-USRDAT_DX", 1074856036, "R4", 1, "m", "Geodetic datum X axis shift at the orgin"⟩,
  ⟨"CFG-NAVSPG-USRDAT_DY", 1074856037, "R4", 1, "m", "Geodetic datum Y axis shift at the origin"⟩,
  ⟨"CFG-NAVSPG-USRDAT_DZ", 1074856038, "R4", 1, "m", "Geodetic datum Z axis shift at the origin"⟩]

/-- Entries 448-511 of the `cfgs` registry (continued). -/
def cfgsPart07 : List CfgItem := [
  ⟨"CFG-NAVSPG-USRDAT_ROTX", 1074856039, "R4", 1, "arcsec", "Geodetic datum rotation about the X axis"⟩,
  ⟨"CFG-NAVSPG-USRDAT_ROTY", 1074856040, "R4", 1, "arcsec", "Geodetic datum rotation about the Y axis ()"⟩,
  ⟨"CFG-NAVSPG-USRDAT_ROTZ", 1074856041, "R4", 1, "arcsec", "Geodetic datum rotation about the Z axis"⟩,
  ⟨"CFG-NAVSPG-USRDAT_SCALE", 1074856042, "R4", 1, "ppm", "Geodetic datum scale factor"⟩,
  ⟨"CFG-NAVSPG-INFIL_MINSVS", 537985185, "U1", 1, "", "Minimum number of satellites for navigation"⟩,
  ⟨"CFG-NAVSPG-INFIL_MAXSVS", 537985186, "U1", 1, "", "Maximum number of satellites for navigation"⟩,
  ⟨"CFG-NAVSPG-INFIL_MINCNO", 537985187, "U1", 1, "dBHz", "Minimum satellite signal level for navigation"⟩,
  ⟨"CFG-NAVSPG-INFIL_MINELEV", 537985188, "I1", 1, "deg", "Minimum elevation for a GNSS satellite to be used in navigation"⟩,
  ⟨"CFG-NAVSPG-INFIL_NCNOTHRS", 537985194, "U1", 1, "", "Number of satellites required to have C/N0 above CFG-NAVSPG-INFIL_CNOTHRS for a fix to be attempted"⟩,
  ⟨"CFG-NAVSPG-INFIL_CNOTHRS", 537985195, "U1", 1, "", "C/N0 threshold for deciding whether to attempt a fix"⟩,
  ⟨"CFG-NAVSPG-OUTFIL_PDOP", 806420657, "U2", (1 : Rat)/10, "", "Output filter position DOP mask (threshold)"⟩,
  ⟨"CFG-NAVSPG-OUTFIL_TDOP", 806420658, "U2", (11 : Rat)/100, "", "Output filter time DOP mask (threshold)"⟩,
  ⟨"CFG-NAVSPG-OUTFIL_PACC", 806420659, "U2", 1, "m", "Output filter position accuracy mask (threshold)"⟩,
  ⟨"CFG-NAVSPG-OUTFIL_TACC", 806420660, "U2", 1, "m", "Output filter time accuracy mask (threshold)"⟩,
  ⟨"CFG-NAVSPG-OUTFIL_FACC", 806420661, "U2", (1 : Rat)/100, "m/s", "Output filter frequency accuracy mask (threshold)"⟩,
  ⟨"CFG-NAVSPG-CONSTR_ALT", 1074856129, "I4", (1 : Rat)/100, "m", "Fixed altitude (mean sea level) for 2D fix mode"⟩,
  ⟨"CFG-NAVSPG-CONSTR_ALTVAR", 1074856130, "U4", (1 : Rat)/10000, "M^2", "Fixed altitude variance for 2D mode"⟩,
  ⟨"CFG-NAVSPG-CONSTR_DGNSSTO", 537985220, "U1", 1, "s", "DGNSS timeout"⟩,
  ⟨"CFG-NMEA-PROTVER", 546504705, "E1", 1, "", "NMEA protocol version"⟩,
  ⟨"CFG-NMEA-MAXSVS", 546504706, "E1", 1, "", "Maximum number of SVs to report per Talker ID"⟩,
  ⟨"CFG-NMEA-COMPAT", 278069251, "L", 1, "", "Enable compatibility mode"⟩,
  ⟨"CFG-NMEA-CONSIDER", 278069252, "L", 1, "", "Enable considering mode"⟩,
  ⟨"CFG-NMEA-LIMIT82", 278069253, "L", 1, "", "Enable strict limit to 82 characters maximum NMEA message length"⟩,
  ⟨"CFG-NMEA-HIGHPREC", 278069254, "L", 1, "", "Enable high precision mode"⟩,
  ⟨"CFG-NMEA-SVNUMBERING", 546504711, "E1", 1, "", "Display configuration for SVs that have no value defined in NMEA"⟩,
  ⟨"CFG-NMEA-FILT_GPS", 278069265, "L", 1, "", "Disable reporting of GPS satellites"⟩,
  ⟨"CFG-NMEA-FILT_SBAS", 278069266, "L", 1, "", "Disable reporting of SBAS satellites"⟩,
  ⟨"CFG-NMEA-FILT_QZSS", 278069269, "L", 1, "", "Disable reporting of QZSS satellites"⟩,
  ⟨"CFG-NMEA-FILT_GLO", 278069270, "L", 1, "", "Disable reporting of GLONASS satellites"⟩,
  ⟨"CFG-NMEA-FILT_BDS", 278069271, "L", 1, "", "Disable reporting of BeiDou satellites"⟩,
  ⟨"CFG-NMEA-OUT_INVFIX", 278069281, "L", 1, "", "Enable position output for failed or invalid fixes"⟩,
  ⟨"CFG-NMEA-OUT_MSKFIX", 278069282, "L", 1, "", "Enable position output for invalid fixes"⟩,
  ⟨"CFG-NMEA-OUT_INVTIME", 278069283, "L", 1, "", "Enable time output for invalid times"⟩,
  ⟨"CFG-NMEA-OUT_INVDATE", 278069284, "L", 1, "", "Enable date output for invalid dates"⟩,
  ⟨"CFG-NMEA-OUT_ONLYGPS", 278069285, "L", 1, "", "Restrict output to GPS satellites only"⟩,
  ⟨"CFG-NMEA-OUT_FROZENCOG", 278069286, "L", 1, "", "Enable course over ground output even if it is frozen"⟩,
  ⟨"CFG-NMEA-MAINTALKERID", 546504753, "E1", 1, "", "Main Talker ID"⟩,
  ⟨"CFG-NMEA-GSVTALKERID", 546504754, "E1", 1, "", "Talker ID for GSV NMEA messages"⟩,
  ⟨"CFG-NMEA-BDSTALKERID", 814940211, "U2", 1, "", "BeiDou Talker ID"⟩,
  ⟨"CFG-ODO-USE_ODO", 270663681, "L", 1, "", "Use odometer"⟩,
  ⟨"CFG-ODO-USE_COG", 270663682, "L", 1, "", "Use low-speed course over ground filter"⟩,
  ⟨"CFG-ODO-OUTLPVEL", 270663683, "L", 1, "", "Output low-pass filtered velocity"⟩,
  ⟨"CFG-ODO-OUTLPCOG", 270663684, "L", 1, "", "Output low-pass filtered course over ground (heading)"⟩,
  ⟨"CFG-ODO-PROFILE", 539099141, "E1", 1, "", "Odometer profile configuration"⟩,
  ⟨"CFG-ODO-COGMAXSPEED", 539099169, "U1", 1, "m/s", "Upper speed limit for low-speed course over ground filter"⟩,
  ⟨"CFG-ODO-COGMAXPOSACC", 539099170, "U1", 1, "", "Maximum acceptable position accuracy for computing low-speed  filtered course over ground"⟩,
  ⟨"CFG-ODO-COGLPGAIN", 539099186, "", 1, "", "Course over ground low-pass filter level (at speed < 8 m/s)"⟩,
  ⟨"CFG-ODO-VELLPGAIN", 539099185, "U1", 1, "", "Velocity low-pass filter level"⟩,
  ⟨"CFG-RATE-MEAS", 807469057, "U2", (1 : Rat)/1000, "s", "Nominal time between GNSS measurements"⟩,
  ⟨"CFG-RATE-NAV", 807469058, "U2", 1, "", "Ratio of number of measurements to number of navigation solutions"⟩,
  ⟨"CFG-RATE-TIMEREF", 539033603, "E1", 1, "", "Time system to which measurements are aligned"⟩,
  ⟨"CFG-RINV-DUMP", 281477121, "L", 1, "", "Dump data at startup"⟩,
  ⟨"CFG-RINV-BINARY", 281477122, "L", 1, "", "Data is binary"⟩,
  ⟨"CFG-RINV-DATA_SIZE", 549912579, "U1", 1, "", "Size of data"⟩,
  ⟨"CFG-RINV-CHUNK0", 1355218948, "X8", 1, "", "Data bytes 1-8 (LSB)"⟩,
  ⟨"CFG-RINV-CHUNK1", 1355218949, "X8", 1, "", "Data bytes 9-16"⟩,
  ⟨"CFG-RINV-CHUNK2", 1355218950, "X8", 1, "", "Data bytes 17-24"⟩,
  ⟨"CFG-RINV-CHUNK3", 1355218951, "X8", 1, "", "Data bytes 25-30 (MSB)"⟩,
  ⟨"CFG-SBAS-USE_TESTMODE", 271974402, "L", 1, "", "Use SBAS data when it is in test mode"⟩,
  ⟨"CFG-SBAS-USE_RANGING", 271974403, "L", 1, "", "Use SBAS GEOs as a ranging source (for navigation)"⟩,
  ⟨"CFG-SBAS-USE_DIFFCORR", 271974404, "L", 1, "", "Use SBAS differential corrections"⟩,
  ⟨"CFG-SBAS-USE_INTEGRITY", 271974405, "L", 1, "", "Use SBAS integrity information"⟩,
  ⟨"CFG-SBAS-PRNSCANMASK", 1345716230, "X8", 1, "", "SBAS PRN search configuration"⟩,
  ⟨"CFG-SIGNAL-GPS_ENA", 271646751, "L", 1, "", "GPS enable"⟩]

/-- Entries 512-575 of the `cfgs` registry (continued). -/
def cfgsPart08 : List CfgItem := [
  ⟨"CFG-SIGNAL-GPS_L1CA_ENA", 271646721, "L", 1, "", "GPS L1C/A"⟩,
  ⟨"CFG-SIGNAL-GPS_L2C_ENA", 271646723, "L", 1, "", "GPS L2C"⟩,
  ⟨"CFG-SIGNAL-SBAS_ENA", 271646752, "L", 1, "", "SBAS enable"⟩,
  ⟨"CFG-SIGNAL-SBAS_L1CA_ENA", 271646725, "L", 1, "", "SBAS L1C/A"⟩,
  ⟨"CFG-SIGNAL-GAL_ENA", 271646753, "L", 1, "", "Galileo enable"⟩,
  ⟨"CFG-SIGNAL-GAL_E1_ENA", 271646727, "L", 1, "", "Galileo E1"⟩,
  ⟨"CFG-SIGNAL-GAL_E5B_ENA", 271646730, "L", 1, "", "Galileo E5b"⟩,
  ⟨"CFG-SIGNAL-BDS_ENA", 271646754, "L", 1, "", "BeiDou Enable"⟩,
  ⟨"CFG-SIGNAL-BDS_B1_ENA", 271646733, "L", 1, "", "BeiDou B1I"⟩,
  ⟨"CFG-SIGNAL-BDS_B2_ENA", 271646734, "L", 1, "", "BeiDou B2I"⟩,
  ⟨"CFG-SIGNAL-QZSS_ENA", 271646756, "L", 1, "", "QZSS enable"⟩,
  ⟨"CFG-SIGNAL-QZSS_L1CA_ENA", 271646738, "L", 1, "", "QZSS L1C/A"⟩,
  ⟨"CFG-SIGNAL-QZSS_L1S_ENA", 271646740, "L", 1, "", "QZSS L1S"⟩,
  ⟨"CFG-SIGNAL-QZSS_L2C_ENA", 271646741, "L", 1, "", "QZSS L2C"⟩,
  ⟨"CFG-SIGNAL-GLO_ENA", 271646757, "L", 1, "", "GLONASS enable"⟩,
  ⟨"CFG-SIGNAL-GLO_L1_ENA", 271646744, "L", 1, "", "GLONASS L1"⟩,
  ⟨"CFG-SIGNAL-GLO_L2_ENA", 271646746, "L", 1, "", "GLONASS L2"⟩,
  ⟨"CFG-SPI-MAXFF", 543424513, "U1", 1, "", "Number of bytes containing 0xFF to receive before switching off reception."⟩,
  ⟨"CFG-SPI-CPOLARITY", 274989058, "L", 1, "", "Clock polarity select"⟩,
  ⟨"CFG-SPI-CPHASE", 274989059, "L", 1, "", "Clock phase select"⟩,
  ⟨"CFG-SPI-EXTENDEDTIMEOUT", 274989061, "L", 1, "", "Flag to disable timeouting the interface after 1.5s"⟩,
  ⟨"CFG-SPI-ENABLED", 274989062, "L", 1, "", "Flag to indicate if the SPI interface should be enabled"⟩,
  ⟨"CFG-SPIINPROT-UBX", 276365313, "L", 1, "", "Flag to indicate if UBX should be an input protocol on SPI"⟩,
  ⟨"CFG-SPIINPROT-NMEA", 276365314, "L", 1, "", "Flag to indicate if NMEA should be an input protocol on SPI"⟩,
  ⟨"CFG-SPIINPROT-RTCM2X", 276365315, "L", 1, "", "Flag to indicate if RTCM2X should be an input protocol on SPI"⟩,
  ⟨"CFG-SPIINPROT-RTCM3X", 276365316, "L", 1, "", "Flag to indicate if RTCM3X should be an input protocol on SPI"⟩,
  ⟨"CFG-SPIOUTPROT-UBX", 276430849, "L", 1, "", "Flag to indicate if UBX should be an output protocol on SPI"⟩,
  ⟨"CFG-SPIOUTPROT-NMEA", 276430850, "L", 1, "", "Flag to indicate if NMEA should be an output protocol on SPI"⟩,
  ⟨"CFG-SPIOUTPROT-RTCM3X", 276430852, "L", 1, "", "Flag to indicate if RTCM3X should be an output protocol on SPI"⟩,
  ⟨"CFG-TMODE-MODE", 537067521, "E1", 1, "", "Receiver mode"⟩,
  ⟨"CFG-TMODE-POS_TYPE", 537067522, "E1", 1, "", "Determines whether the ARP position is given in ECEF or LAT/LON/HEIGHT?"⟩,
  ⟨"CFG-TMODE-ECEF_X", 1073938435, "I4", 1, "cm", "ECEF X coordinate of the ARP position."⟩,
  ⟨"CFG-TMODE-ECEF_Y", 1073938436, "I4", 1, "cm", "ECEF Y coordinate of the ARP position."⟩,
  ⟨"CFG-TMODE-ECEF_Z", 1073938437, "I4", 1, "cm", "ECEF Z coordinate of the ARP position."⟩,
  ⟨"CFG-TMODE-ECEF_X_HP", 537067526, "I1", (1 : Rat)/10, "mm", "High-precision ECEF X coordinate of the ARP position."⟩,
  ⟨"CFG-TMODE-ECEF_Y_HP", 537067527, "I1", (1 : Rat)/10, "mm", "High-precision ECEF Y coordinate of the ARP position."⟩,
  ⟨"CFG-TMODE-ECEF_Z_HP", 537067528, "I1", (1 : Rat)/10, "mm", "High-precision ECEF Z coordinate of the ARP position."⟩,
  ⟨"CFG-TMODE-LAT", 1073938441, "I4", (1 : Rat)/10000000, "deg", "Latitude of the ARP position."⟩,
  ⟨"CFG-TMODE-LON", 1073938442, "I4", (1 : Rat)/10000000, "deg", "Longitude of the ARP position."⟩,
  ⟨"CFG-TMODE-HEIGHT", 1073938443, "I4", 1, "cm", "Height of the ARP position."⟩,
  ⟨"CFG-TMODE-LAT_HP", 537067532, "I1", (1 : Rat)/1000000000, "deg", "High-precision latitude of the ARP position"⟩,
  ⟨"CFG-TMODE-LON_HP", 537067533, "I1", (1 : Rat)/1000000000, "deg", "High-precision longitude of the ARP position."⟩,
  ⟨"CFG-TMODE-HEIGHT_HP", 537067534, "I1", (1 : Rat)/10, "mm", "High-precision height of the ARP position."⟩,
  ⟨"CFG-TMODE-FIXED_POS_ACC", 1073938447, "U4", (1 : Rat)/10, "mm", "Fixed position 3D accuracy"⟩,
  ⟨"CFG-TMODE-SVIN_MIN_DUR", 1073938448, "U4", 1, "s", "Survey-in minimum duration"⟩,
  ⟨"CFG-TMODE-SVIN_ACC_LIMIT", 1073938449, "U4", (1 : Rat)/10, "mm", "Survey-in position accuracy limit"⟩,
  ⟨"CFG-TP-PULSE_DEF", 537198627, "E1", 1, "", "Determines whether the time pulse is interpreted as frequency or period?"⟩,
  ⟨"CFG-TP-PULSE_LENGTH_DEF", 537198640, "E1", 1, "", "Determines whether the time pulse length is interpreted as length[us] or pulse ratio[%]?"⟩,
  ⟨"CFG-TP-ANT_CABLEDELAY", 805634049, "I2", (1 : Rat)/1000000000, "s", "Antenna cable delay"⟩,
  ⟨"CFG-TP-PERIOD_TP1", 1074069506, "U4", (1 : Rat)/1000000, "s", "Time pulse period (TP1)"⟩,
  ⟨"CFG-TP-PERIOD_LOCK_TP1", 1074069507, "U4", (1 : Rat)/1000000, "s", "Time pulse period when locked to GNSS time (TP1)"⟩,
  ⟨"CFG-TP-FREQ_TP1", 1074069540, "U4", 1, "Hz", "Time pulse frequency (TP1)"⟩,
  ⟨"CFG-TP-FREQ_LOCK_TP1", 1074069541, "U4", 1, "Hz", "Time pulse frequency when locked to GNSS time (TP1)"⟩,
  ⟨"CFG-TP-LEN_TP1", 1074069508, "U4", (1 : Rat)/1000000, "s", "Time pulse length (TP1)"⟩,
  ⟨"CFG-TP-LEN_LOCK_TP1", 1074069509, "U4", (1 : Rat)/1000000, "s", "Time pulse length when locked to GNSS time (TP1)"⟩,
  ⟨"CFG-TP-DUTY_TP1", 1342505002, "R8", 1, "%", "Time pulse duty cycle (TP1)"⟩,
  ⟨"CFG-TP-DUTY_LOCK_TP1", 1342505003, "R8", 1, "%", "Time pulse duty cycle when locked to GNSS time (TP1)"⟩,
  ⟨"CFG-TP-USER_DELAY_TP1", 1074069510, "I4", (1 : Rat)/1000000000, "s", "User configurable time pulse delay (TP1)"⟩,
  ⟨"CFG-TP-TP1_ENA", 268763143, "L", 1, "", "Enable the first timepulse"⟩,
  ⟨"CFG-TP-SYNC_GNSS_TP1", 268763144, "L", 1, "", "Sync time pulse to GNSS time or local clock (TP1)"⟩,
  ⟨"CFG-TP-USE_LOCKED_TP1", 268763145, "L", 1, "", "Use locked parameters when possible (TP1)"⟩,
  ⟨"CFG-TP-ALIGN_TO_TOW_TP1", 268763146, "L", 1, "", "Align time pulse to top of second (TP1)"⟩,
  ⟨"CFG-TP-POL_TP1", 268763147, "L", 1, "", "Set time pulse polarity (TP1)"⟩,
  ⟨"CFG-TP-TIMEGRID_TP1", 537198604, "E1", 1, "", "Time grid to use (TP1)"⟩]

/-- Entries 576-639 of the `cfgs` registry (continued). -/
def cfgsPart09 : List CfgItem := [
  ⟨"CFG-TP-PERIOD_TP2", 1074069517, "U4", (1 : Rat)/1000000, "s", "Time pulse period (TP2)"⟩,
  ⟨"CFG-TP-PERIOD_LOCK_TP2", 1074069518, "U4", (1 : Rat)/1000000, "s", "Time pulse period when locked to GNSS time (TP2)"⟩,
  ⟨"CFG-TP-FREQ_TP2", 1074069542, "U4", 1, "Hz", "Time pulse frequency (TP2)"⟩,
  ⟨"CFG-TP-FREQ_LOCK_TP2", 1074069543, "U4", 1, "Hz", "Time pulse frequency when locked to GNSS time (TP2)"⟩,
  ⟨"CFG-TP-LEN_TP2", 1074069519, "U4", (1 : Rat)/1000000, "s", "Time pulse length (TP2)"⟩,
  ⟨"CFG-TP-LEN_LOCK_TP2", 1074069520, "U4", (1 : Rat)/1000000, "s", "Time pulse length when locked to GNSS time (TP2)"⟩,
  ⟨"CFG-TP-DUTY_TP2", 1342505004, "R8", 1, "%", "Time pulse duty cycle (TP2)"⟩,
  ⟨"CFG-TP-DUTY_LOCK_TP2", 1342505005, "R8", 1, "%", "Time pulse duty cycle when locked to GNSS time (TP2)"⟩,
  ⟨"CFG-TP-USER_DELAY_TP2", 1074069521, "I4", (1 : Rat)/1000000000, "s", "User configurable time pulse delay (TP2)"⟩,
  ⟨"CFG-TP-TP2_ENA", 268763154, "L", 1, "", "Enable the second timepulse"⟩,
  ⟨"CFG-TP-SYNC_GNSS_TP2", 268763155, "L", 1, "", "Sync time pulse to GNSS time or local clock (TP2)"⟩,
  ⟨"CFG-TP-USE_LOCKED_TP2", 268763156, "L", 1, "", "Use locked parameters when possible (TP2)"⟩,
  ⟨"CFG-TP-ALIGN_TO_TOW_TP2", 268763157, "L", 1, "", "Align time pulse to top of second (TP2)"⟩,
  ⟨"CFG-TP-POL_TP2", 268763158, "L", 1, "", "Set time pulse polarity (TP2)"⟩,
  ⟨"CFG-TP-TIMEGRID_TP2", 537198615, "E1", 1, "", "Time grid to use (TP2)"⟩,
  ⟨"CFG-UART1-BAUDRATE", 1079115777, "U4", 1, "", "The baud rate that should be configured on the UART1"⟩,
  ⟨"CFG-UART1-STOPBITS", 542244866, "E1", 1, "", "Number of stopbits that should be used on UART1"⟩,
  ⟨"CFG-UART1-DATABITS", 542244867, "E1", 1, "", "Number of databits that should be used on UART1"⟩,
  ⟨"CFG-UART1-PARITY", 542244868, "E1", 1, "", "Parity mode that should be used on UART1"⟩,
  ⟨"CFG-UART1-ENABLED", 273809413, "L", 1, "", "Flag to indicate if the UART1 should be enabled"⟩,
  ⟨"CFG-UART1INPROT-UBX", 275972097, "L", 1, "", "Flag to indicate if UBX should be an input protocol on UART1"⟩,
  ⟨"CFG-UART1INPROT-NMEA", 275972098, "L", 1, "", "Flag to indicate if NMEA should be an input protocol on UART1"⟩,
  ⟨"CFG-UART1INPROT-RTCM2X", 275972099, "L", 1, "", "Flag to indicate if RTCM2X should be an input protocol on UART1"⟩,
  ⟨"CFG-UART1INPROT-RTCM3X", 275972100, "L", 1, "", "Flag to indicate if RTCM3X should be an input protocol on UART1"⟩,
  ⟨"CFG-UART1OUTPROT-UBX", 276037633, "L", 1, "", "Flag to indicate if UBX should be an output protocol on UART1"⟩,
  ⟨"CFG-UART1OUTPROT-NMEA", 276037634, "L", 1, "", "Flag to indicate if NMEA should be an output protocol on UART1"⟩,
  ⟨"CFG-UART1OUTPROT-RTCM3X", 276037636, "L", 1, "", "Flag to indicate if RTCM3X should be an output protocol on UART1"⟩,
  ⟨"CFG-UART2-BAUDRATE", 1079181313, "U4", 1, "", "The baud rate that should be configured on the UART2"⟩,
  ⟨"CFG-UART2-STOPBITS", 542310402, "E1", 1, "", "Number of stopbits that should be used on UART2"⟩,
  ⟨"CFG-UART2-DATABITS", 542310403, "E1", 1, "", "Number of databits that should be used on UART2"⟩,
  ⟨"CFG-UART2-PARITY", 542310404, "E1", 1, "", "Parity mode that should be used on UART2"⟩,
  ⟨"CFG-UART2-ENABLED", 273874949, "L", 1, "", "Flag to indicate if the UART2 should be enabled"⟩,
  ⟨"CFG-UART2-REMAP", 273874950, "L", 1, "", "UART2 Remapping"⟩,
  ⟨"CFG-UART2INPROT-UBX", 276103169, "L", 1, "", "Flag to indicate if UBX should be an input protocol on UART2"⟩,
  ⟨"CFG-UART2INPROT-NMEA", 276103170, "L", 1, "", "Flag to indicate if NMEA should be an input protocol on UART2"⟩,
  ⟨"CFG-UART2INPROT-RTCM2X", 276103171, "L", 1, "", "Flag to indicate if RTCM2X should be an input protocol on UART2"⟩,
  ⟨"CFG-UART2INPROT-RTCM3X", 276103172, "L", 1, "", "Flag to indicate if RTCM3X should be an input protocol on UART2"⟩,
  ⟨"CFG-UART2OUTPROT-UBX", 276168705, "L", 1, "", "Flag to indicate if UBX should be an output protocol on UART2"⟩,
  ⟨"CFG-UART2OUTPROT-NMEA", 276168706, "L", 1, "", "Flag to indicate if NMEA should be an output protocol on UART2"⟩,
  ⟨"CFG-UART2OUTPROT-RTCM3X", 276168708, "L", 1, "", "Flag to indicate if RTCM3X should be an output protocol on UART2"⟩,
  ⟨"CFG-USB-ENABLED", 275054593, "L", 1, "", "Flag to indicate if the USB interface should be enabled"⟩,
  ⟨"CFG-USB-SELFPOW", 275054594, "L", 1, "", "Self-Powered device"⟩,
  ⟨"CFG-USB-VENDOR_ID", 811925514, "U2", 1, "", "Vendor ID"⟩,
  ⟨"CFG-USB-PRODUCT_ID", 811925515, "U2", 1, "", "Product ID"⟩,
  ⟨"CFG-USB-POWER", 811925516, "U2", 1, "mA", "Power consumption"⟩,
  ⟨"CFG-USB-VENDOR_STR0", 1348796429, "X8", 1, "", "Vendor string characters 0-7"⟩,
  ⟨"CFG-USB-VENDOR_STR1", 1348796430, "X8", 1, "", "Vendor string characters 8-15"⟩,
  ⟨"CFG-USB-VENDOR_STR2", 1348796431, "X8", 1, "", "Vendor string characters 16-23"⟩,
  ⟨"CFG-USB-VENDOR_STR3", 1348796432, "X8", 1, "", "Vendor string characters 24-31"⟩,
  ⟨"CFG-USB-PRODUCT_STR0", 1348796433, "X8", 1, "", "Product string characters 0-7"⟩,
  ⟨"CFG-USB-PRODUCT_STR1", 1348796434, "X8", 1, "", "Product string characters 8-15"⟩,
  ⟨"CFG-USB-PRODUCT_STR2", 1348796435, "X8", 1, "", "Product string characters 16-23"⟩,
  ⟨"CFG-USB-PRODUCT_STR3", 1348796436, "X8", 1, "", "Product string characters 24-31"⟩,
  ⟨"CFG-USB-SERIAL_NO_STR0", 1348796437, "X8", 1, "", "Serial number string characters 0-7"⟩,
  ⟨"CFG-USB-SERIAL_NO_STR1", 1348796438, "X8", 1, "", "Serial number string characters 8-15"⟩,
  ⟨"CFG-USB-SERIAL_NO_STR2", 1348796439, "X8", 1, "", "Serial number string characters 16-23"⟩,
  ⟨"CFG-USB-SERIAL_NO_STR3", 1348796440, "X8", 1, "", "Serial number string characters 24-31"⟩,
  ⟨"CFG-USBINPROT-UBX", 276234241, "L", 1, "", "Flag to indicate if UBX should be an input protocol on USB"⟩,
  ⟨"CFG-USBINPROT-NMEA", 276234242, "L", 1, "", "Flag to indicate if NMEA should be an input protocol on USB"⟩,
  ⟨"CFG-USBINPROT-RTCM2X", 276234243, "L", 1, "", "Flag to indicate if RTCM2X should be an input protocol on USB"⟩,
  ⟨"CFG-USBINPROT-RTCM3X", 276234244, "L", 1, "", "Flag to indicate if RTCM3X should be an input protocol on USB"⟩,
  ⟨"CFG-USBOUTPROT-UBX", 276299777, "L", 1, "", "Flag to indicate if UBX should be an output protocol on USB"⟩,
  ⟨"CFG-USBOUTPROT-NMEA", 276299778, "L", 1, "", "Flag to indicate if NMEA should be an output protocol on USB"⟩,
  ⟨"CFG-USBOUTPROT-RTCM3X", 276299780, "L", 1, "", "Flag to indicate if RTCM3X should be an output protocol on USB"⟩]

/-- The full `cfgs` registry of class ubx in src/ubxtool.py, in source order. -/
def cfgs : List CfgItem :=
  cfgsPart00 ++ cfgsPart01 ++ cfgsPart02 ++ cfgsPart03 ++ cfgsPart04 ++ cfgsPart05 ++ cfgsPart06 ++ cfgsPart07 ++ cfgsPart08 ++ cfgsPart09


/-- `ubx.cfg_by_key(key)` of src/ubxtool.py: linear scan of `cfgs` for a
matching key.  On a miss the source executes
`name = "CFG-%u-%u" % ((key >> 16) & 0xff, ket & 0xff)` whose name `ket`
is undefined, so the call raises `NameError` instead of building the
synthetic fallback item; the raised exception is modelled as `.error`. -/
def cfg_by_key (key : Nat) : Except String CfgItem :=
  match cfgs.find? (fun item => item.key == key) with
  | some item => .ok item
  | none => .error "NameError: name \x27ket\x27 is not defined"

/-- `ubx.cfg_by_name(name)` of src/ubxtool.py: linear scan of `cfgs` for a
matching name, `None` on a miss. -/
def cfg_by_name (name : String) : Option CfgItem :=
  cfgs.find? (fun item => item.name == name)

/-- One entry of an id table (`ack_ids`, `nav_ids`, ...): the Python dict
with optional keys `str`, `name` and `dec`.  The `dec` value is a
bound method; it is represented here by the name of the method (each method is
a pure function of the payload). -/
structure IdInfo where
  str : Option String
  name : Option String
  dec : Option String
deriving DecidableEq, Repr

/-- One entry of the `classes` table: the Python dict with keys `str`
and optionally `ids`. -/
structure ClassInfo where
  str : Option String
  ids : Option (List (Nat × IdInfo))
deriving DecidableEq, Repr

/-- Table `ack_ids` of class ubx in src/ubxtool.py: maps the id
byte to its entry; `dec` holds the name of the referenced
decoder function when the entry has one. -/
def ackIds : List (Nat × IdInfo) := [
  (0, ⟨some "NAK", some "UBX-ACK-NAK", some "ack_ack"⟩),
  (1, ⟨some "ACK", some "UBX-ACK-ACK", some "ack_ack"⟩)]

/-- Table `cfg_ids` of class ubx in src/ubxtool.py: maps the id
byte to its entry; `dec` holds the name of the referenced
decoder function when the entry has one. -/
def cfgIds : List (Nat × IdInfo) := [
  (0, ⟨some "PRT", some "UBX-CFG-PRT", some "cfg_prt"⟩),
  (1, ⟨some "MSG", some "UBX-CFG-MSG", some "cfg_msg"⟩),
  (2, ⟨some "INF", some "UBX-CFG-INF", none⟩),
  (4, ⟨some "RST", some "UBX-CFG-RST", some "cfg_rst"⟩),
  (6, ⟨some "DAT", some "UBX-CFG-DAT", none⟩),
  (8, ⟨some "RATE", some "UBX-CFG-RATE", none⟩),
  (9, ⟨some "CFG", some "UBX-CFG-CFG", some "cfg_cfg"⟩),
  (17, ⟨some "RXM", some "UBX-CFG-RXM", none⟩),
  (19, ⟨some "ANT", some "UBX-CFG-ANT", some "cfg_ant"⟩),
  (22, ⟨some "SBAS", some "UBX-CFG-SBAS", some "cfg_sbas"⟩),
  (23, ⟨some "NMEA", some "UBX-CFG-NMEA", none⟩),
  (27, ⟨some "USB", some "UBX-CFG-USB", some "cfg_usb"⟩),
  (30, ⟨some "ODO", some "UBX-CFG-ODO", none⟩),
  (35, ⟨some "NAVX5", some "UBX-CFG-NAVX5", some "cfg_navx5"⟩),
  (36, ⟨some "NAV5", some "UBX-CFG-NAV5", some "cfg_nav5"⟩),
  (49, ⟨some "TP5", some "UBX-CFG-TP5", some "cfg_tp5"⟩),
  (52, ⟨some "RINV", some "UBX-CFG-RINV", none⟩),
  (57, ⟨some "ITFM", some "UBX-CFG-ITFM", none⟩),
  (59, ⟨some "PM2", some "UBX-CFG-PM2", none⟩),
  (61, ⟨some "TMODE2", some "UBX-CFG-TMODE2", some "cfg_tmode2"⟩),
  (62, ⟨some "GNSS", some "UBX-CFG-GNSS", some "cfg_gnss"⟩),
  (71, ⟨some "LOGFILTER", some "UBX-CFG-LOGFILTER", none⟩),
  (83, ⟨some "TXSLOT", some "UBX-CFG-TXSLOT", none⟩),
  (87, ⟨some "PWR", some "UBX-CFG-PWR", none⟩),
  (92, ⟨some "HNR", some "UBX-CFG-HNR", none⟩),
  (96, ⟨some "ESRC", some "UBX-CFG-ESRC", none⟩),
  (97, ⟨some "DOSC", some "UBX-CFG-OSC", none⟩),
  (98, ⟨some "SMGR", some "UBX-CFG-SMGR", none⟩),
  (105, ⟨some "GEOFENCE", some "UBX-CFG-GEOFENCE", none⟩),
  (112, ⟨some "DGNSS", some "UBX-CFG-DGNSS", none⟩),
  (113, ⟨some "TMODE3", some "UBX-CFG-TMODE3", none⟩),
  (132, ⟨some "FIXSEED", some "UBX-CFG-FIXSEED", none⟩),
  (133, ⟨some "DYNSEED", some "UBX-CFG-DYNSEED", none⟩),
  (134, ⟨some "PMS", some "UBX-CFG-PMS", some "cfg_pms"⟩),
  (138, ⟨some "VALSET", some "UBX-CFG-VALSET", some "cfg_valset"⟩),
  (139, ⟨some "VALGET", some "UBX-CFG-VALGET", some "cfg_valget"⟩),
  (140, ⟨some "VALDEL", some "UBX-CFG-VALDEL", some "cfg_valdel"⟩)]

/-- Table `inf_ids` of class ubx in src/ubxtool.py: maps the id
byte to its entry; `dec` holds the name of the referenced
decoder function when the entry has one. -/
def infIds : List (Nat × IdInfo) := [
  (0, ⟨some "ERROR", some "UBX-INF-ERROR", some "inf_error"⟩),
  (1, ⟨some "WARNING", some "UBX-INF-WARNING", some "inf_warning"⟩),
  (2, ⟨some "NOTICE", some "UBX-INF-NOTICE", some "inf_notice"⟩),
  (3, ⟨some "TEST", some "UBX-INF-TEST", some "inf_test"⟩),
  (4, ⟨some "DEBUG", some "UBX-INF-DEBUG", some "inf_debug"⟩)]

/-- Table `mon_ids` of class ubx in src/ubxtool.py: maps the id
byte to its entry; `dec` holds the name of the referenced
decoder function when the entry has one. -/
def monIds : List (Nat × IdInfo) := [
  (2, ⟨some "IO", some "UBX-MON-IO", some "mon_io"⟩),
  (4, ⟨some "VER", some "UBX-MON-VER", some "mon_ver"⟩),
  (6, ⟨some "MSGPP", some "UBX-MON-MSGPP", none⟩),
  (7, ⟨some "RXBUF", some "UBX-MON-RXBUF", none⟩),
  (8, ⟨some "TXBUF", some "UBX-MON-TXBUF", none⟩),
  (9, ⟨some "HW", some "UBX-MON-HW", none⟩),
  (11, ⟨some "HW2", some "UBX-MON-HW2", none⟩),
  (33, ⟨some "RXR", some "UBX-MON-RXR", none⟩),
  (39, ⟨some "PATCH", some "UBX-MON-PATCH", none⟩),
  (40, ⟨some "GNSS", some "UBX-MON-GNSS", none⟩),
  (46, ⟨some "SMGR", some "UBX-MON-SMGR", none⟩),
  (54, ⟨some "COMMS", some "UBX-MON-COMMS", some "mon_comms"⟩),
  (55, ⟨some "HW3", some "UBX-MON-HW3", none⟩),
  (56, ⟨some "RF", some "UBX-MON-RF", none⟩)]

/-- Table `nav_ids` of class ubx in src/ubxtool.py: maps the id
byte to its entry; `dec` holds the name of the referenced
decoder function when the entry has one. -/
def navIds : List (Nat × IdInfo) := [
  (1, ⟨some "POSECEF", some "UBX-NAV-POSECEF", some "nav_posecef"⟩),
  (2, ⟨some "POSLLH", some "UBX-NAV-POSLLH", some "nav_posllh"⟩),
  (3, ⟨some "STATUS", some "UBX-NAV-STATUS", some "nav_status"⟩),
  (4, ⟨some "DOP", some "UBX-NAV-DOP", some "nav_dop"⟩),
  (5, ⟨some "ATT", some "UBX-NAV-ATT", none⟩),
  (6, ⟨some "SOL", some "UBX-NAV-SOL", some "nav_sol"⟩),
  (7, ⟨some "PVT", some "UBX-NAV-PVT", some "nav_pvt"⟩),
  (9, ⟨some "ODO", some "UBX-NAV-ODO", none⟩),
  (16, ⟨some "RESETODO", some "UBX-NAV-RESETODO", none⟩),
  (17, ⟨some "VELECEF", some "UBX-NAV-VELECEF", some "nav_velecef"⟩),
  (18, ⟨some "VELNED", some "UBX-NAV-VELNED", some "nav_velned"⟩),
  (19, ⟨some "HPPOSECEF", some "UBX-NAV-HPPOSECEF", some "nav_hpposecef"⟩),
  (20, ⟨some "HPPOSLLH", some "UBX-NAV-HPPOSLLH", some "nav_hpposllh"⟩),
  (32, ⟨some "TIMEGPS", some "UBX-NAV-TIMEGPS", some "nav_timegps"⟩),
  (33, ⟨some "TIMEUTC", some "UBX-NAV-TIMEUTC", some "nav_timeutc"⟩),
  (34, ⟨some "CLOCK", some "UBX-NAV-CLOCK", some "nav_clock"⟩),
  (35, ⟨some "TIMEGLO", some "UBX-NAV-TIMEGLO", some "nav_timeglo"⟩),
  (36, ⟨some "TIMEBDS", some "UBX-NAV-TIMEBDS", some "nav_timebds"⟩),
  (37, ⟨some "TIMEGAL", some "UBX-NAV-TIMEGAL", some "nav_timegal"⟩),
  (38, ⟨some "TIMELS", some "UBX-NAV-TIMELS", some "nav_timels"⟩),
  (48, ⟨some "SVINFO", some "UBX-NAV-SVINFO", some "nav_svinfo"⟩),
  (49, ⟨some "DGPS", some "UBX-NAV-DGPS", some "nav_dgps"⟩),
  (50, ⟨some "SBAS", some "UBX-NAV-SBAS", some "nav_sbas"⟩),
  (52, ⟨some "ORB", some "UBX-NAV-ORB", none⟩),
  (53, ⟨some "SAT", some "UBX-NAV-SAT", some "nav_sat"⟩),
  (57, ⟨some "GEOFENCE", some "UBX-NAV-GEOFENCE", some "nav_geofence"⟩),
  (59, ⟨some "SVIN", some "UBX-NAV-SVIN", some "nav_svin"⟩),
  (60, ⟨some "RELPOSNED", some "UBX-NAV-RELPOSNED", none⟩),
  (67, ⟨some "SIG", some "UBX-NAV-SIG", some "nav_sig"⟩),
  (96, ⟨some "AOPSTATUS", some "UBX-NAV-AOPSTATUS", none⟩),
  (97, ⟨some "EOE", some "UBX-NAV-EOE", some "nav_eoe"⟩)]

/-- Table `rtcm_ids` of class ubx in src/ubxtool.py: maps the id
byte to its entry; `dec` holds the name of the referenced
decoder function when the entry has one. -/
def rtcmIds : List (Nat × IdInfo) := [
  (5, ⟨some "1005", none, none⟩),
  (74, ⟨some "1074", none, none⟩),
  (77, ⟨some "1077", none, none⟩),
  (84, ⟨some "1084", none, none⟩),
  (87, ⟨some "1087", none, none⟩),
  (97, ⟨some "1097", none, none⟩),
  (124, ⟨some "1124", none, none⟩),
  (127, ⟨some "1127", none, none⟩),
  (230, ⟨some "1230", none, none⟩),
  (253, ⟨some "4072-1", none, none⟩),
  (254, ⟨some "4072-0", none, none⟩)]

/-- Table `nmea_ids` of class ubx in src/ubxtool.py: maps the id
byte to its entry; `dec` holds the name of the referenced
decoder function when the entry has one. -/
def nmeaIds : List (Nat × IdInfo) := [
  (0, ⟨some "GGA", none, none⟩),
  (1, ⟨some "GLL", none, none⟩),
  (2, ⟨some "GSA", none, none⟩),
  (3, ⟨some "GSV", none, none⟩),
  (4, ⟨some "RMC", none, none⟩),
  (5, ⟨some "VTG", none, none⟩),
  (6, ⟨some "GRS", none, none⟩),
  (7, ⟨some "GST", none, none⟩),
  (8, ⟨some "ZDA", none, none⟩),
  (9, ⟨some "GBS", none, none⟩),
  (10, ⟨some "DTM", none, none⟩),
  (13, ⟨some "GNS", none, none⟩),
  (15, ⟨some "VLW", none, none⟩),
  (64, ⟨some "GPQ", none, none⟩),
  (65, ⟨some "TXT", none, none⟩),
  (66, ⟨some "GNQ", none, none⟩),
  (67, ⟨some "GLQ", none, none⟩),
  (68, ⟨some "GBQ", none, none⟩),
  (69, ⟨some "GAQ", none, none⟩)]

/-- Table `rxm_ids` of class ubx in src/ubxtool.py: maps the id
byte to its entry; `dec` holds the name of the referenced
decoder function when the entry has one. -/
def rxmIds : List (Nat × IdInfo) := [
  (16, ⟨some "RAW", some "UBX-RXM-RAW", some "rxm_raw"⟩),
  (17, ⟨some "SFRB", some "UBX-RXM-SFRB", some "rxm_sfrb"⟩),
  (19, ⟨some "SFRBX", some "UBX-RXM-SFRBX", some "rxm_sfrbx"⟩),
  (20, ⟨some "MEASX", some "UBX-RXM-MEASX", some "rxm_measx"⟩),
  (21, ⟨some "RAWX", some "UBX-RXM-RAWX", some "rxm_rawx"⟩),
  (32, ⟨some "SVSI", some "UBX-RXM-SVSI", some "rxm_svsi"⟩),
  (50, ⟨some "RTCM", some "UBX-RXM-RTCM", none⟩),
  (65, ⟨some "PMREQ", some "UBX-RXM-PMREQ", none⟩),
  (89, ⟨some "RLM", some "UBX-RXM-RLM", none⟩),
  (97, ⟨some "IMES", some "UBX-RXM-IMES", none⟩)]

/-- Table `sec_ids` of class ubx in src/ubxtool.py: maps the id
byte to its entry; `dec` holds the name of the referenced
decoder function when the entry has one. -/
def secIds : List (Nat × IdInfo) := [
  (1, ⟨some "SIGN", some "UBX-SEC-SIGN", none⟩),
  (3, ⟨some "UNIQID", some "UBX-SEC-UNIQID", some "sec_uniqid"⟩)]

/-- Table `tim_ids` of class ubx in src/ubxtool.py: maps the id
byte to its entry; `dec` holds the name of the referenced
decoder function when the entry has one. -/
def timIds : List (Nat × IdInfo) := [
  (1, ⟨some "TP", some "UBX-TIM-TP", some "tim_tp"⟩),
  (3, ⟨some "TM2", some "UBX-TIM-TM2", some "tim_tm2"⟩),
  (4, ⟨some "SVIN", some "UBX-TIM-SVIN", some "tim_svin"⟩),
  (6, ⟨some "VRFY", some "UBX-TIM-VRFY", none⟩),
  (17, ⟨some "DOSC", some "UBX-TIM-DOSC", none⟩),
  (18, ⟨some "TOS", some "UBX-TIM-TOS", none⟩),
  (19, ⟨some "SMEAS", some "UBX-TIM-SMEAS", none⟩),
  (21, ⟨some "VCOCAL", some "UBX-TIM-VCOCAL", none⟩),
  (22, ⟨some "FCHG", some "UBX-TIM-FCHG", none⟩),
  (23, ⟨some "HOC", some "UBX-TIM-HOC", none⟩)]

/-- Table `classes` of class ubx in src/ubxtool.py: maps the
class byte to its display string and id table. -/
def classes : List (Nat × ClassInfo) := [
  (1, ⟨some "NAV", some navIds⟩),
  (2, ⟨some "RXM", some rxmIds⟩),
  (4, ⟨some "INF", some infIds⟩),
  (5, ⟨some "ACK", some ackIds⟩),
  (6, ⟨some "CFG", some cfgIds⟩),
  (9, ⟨some "UPD", none⟩),
  (10, ⟨some "MON", some monIds⟩),
  (11, ⟨some "ATD", none⟩),
  (13, ⟨some "TIM", some timIds⟩),
  (16, ⟨some "ESF", none⟩),
  (19, ⟨some "MGA", none⟩),
  (33, ⟨some "LOG", none⟩),
  (39, ⟨some "SEC", some secIds⟩),
  (40, ⟨some "HNR", none⟩),
  (240, ⟨some "NMEA", some nmeaIds⟩),
  (245, ⟨some "RTCM", some rtcmIds⟩)]

/-- Python `m_class in ubx.classes` / `ubx.classes[m_class]` (dict lookup;
keys are unique, modelled as association-list lookup). -/
def classFind (c : Nat) : Option ClassInfo := classes.lookup c

/-- Python `m_id in ids` / `ids[m_id]` on an id table. -/
def idFind (t : List (Nat × IdInfo)) (i : Nat) : Option IdInfo := t.lookup i

/-- `ubx.class_id_s(m_class, m_id)` of src/ubxtool.py: "Class: " followed
by the class label and `%#x` number, then the id label and `%#x` number,
with bare-hex fallbacks exactly as in the source. -/
def class_id_s (m_class m_id : Nat) : String :=
  match classFind m_class with
  | none => "Class: " ++ pyHashHex m_class ++ " ID: " ++ pyHashHex m_id
  | some cl =>
    let s :=
      match cl.str with
      | some s_class => "Class: " ++ s_class ++ "(" ++ pyHashHex m_class ++ ") "
      | none => "Class: " ++ pyHashHex m_class ++ " "
    match cl.ids with
    | some t =>
      match idFind t m_id with
      | some ent =>
        match ent.str with
        | some s_id => s ++ "ID: " ++ s_id ++ "(" ++ pyHashHex m_id ++ ")"
        | none => s ++ "ID: " ++ pyHashHex m_id
      | none => s ++ "ID: " ++ pyHashHex m_id
    | none => s ++ "ID: " ++ pyHashHex m_id

/-- A Python value returned by `decode_msg` as its second component:
the integer 0 (empty result), a string (comment/NMEA line, hex dump, or
label fallback), or the dict of type name and decoded payload
where `dec` is the decoder method named `decName` of the dispatch-table
entry (a pure function of the payload). -/
inductive PyVal
  | int (n : Int)
  | str (s : String)
  | dict (typeName : String) (decName : String) (payload : List Nat)
deriving DecidableEq, Repr

/-- The `s_payload` computation at the end of `decode_msg` (state CSUM2):
start from the spaced hex dump of the payload; when the class is
registered, has an id table, the id is registered and the entry has a
decoder, replace it with the dict holding the entry name and the decoder
applied to the payload;
when the entry exists but has no decoder, replace it with the labelled
raw string `"%s, len %#x, raw %s"`. -/
def ubx_dispatch (m_class m_id m_len : Nat) (m_payload : List Nat) : PyVal :=
  let s0 := PyVal.str (hexSpaced m_payload)
  match classFind m_class with
  | none => s0
  | some this_class =>
    match this_class.ids with
    | none => s0
    | some t =>
      match idFind t m_id with
      | none => s0
      | some ent =>
        match ent.dec with
        | some decName =>
          -- every table entry carrying a decoder also carries a name
          PyVal.dict (ent.name.getD "") decName m_payload
        | none =>
          PyVal.str (class_id_s m_class m_id ++ ", len " ++ pyHashHex m_len
            ++ ", raw " ++ hexCommas m_payload)

/-- Whether the dispatch table has an entry for `(m_class, m_id)`:
the class is registered, carries an id table, and the id is in it. -/
def hasEntry (c i : Nat) : Bool :=
  match classFind c with
  | none => false
  | some cl =>
    match cl.ids with
    | none => false
    | some t => (idFind t i).isSome

/-- Whether the dispatch-table entry for `(m_class, m_id)` exists and
carries a decoder. -/
def hasDec (c i : Nat) : Bool :=
  match classFind c with
  | none => false
  | some cl =>
    match cl.ids with
    | none => false
    | some t =>
      match idFind t i with
      | none => false
      | some ent => ent.dec.isSome

/-- The states of the `decode_msg` state machine of src/ubxtool.py. -/
inductive Mode
  | BASE | HEADER1 | HEADER2 | CLASS | ID | LEN1 | PAYLOAD | CSUM1 | CSUM2
  | NMEA | COMMENT | JSON | RTCM3_1 | RTCM3_2 | RTCM3_PAYLOAD
deriving DecidableEq, Repr

/-- The mutable locals of `decode_msg` (`m_ck_b` is only assigned in state
CSUM2, immediately before the return, and is kept local there). -/
structure DecSt where
  comment : String
  m_class : Nat
  m_id : Nat
  m_len : Nat
  m_raw : List Nat
  m_payload : List Nat
  m_ck_a : Nat
deriving DecidableEq, Repr

/-- The values `decode_msg` resets at the top of state BASE. -/
def initSt : DecSt := ⟨"", 0, 0, 0, [], [], 0⟩

/-- The UBX frame fields in scope when `decode_msg` returns from state
CSUM2 (exposed for the statements of the frame-level claims). -/
structure UbxFrame where
  cls : Nat
  id : Nat
  len : Nat
  payload : List Nat
  ck_a : Nat
  ck_b : Nat
deriving DecidableEq, Repr

/-- The observable outcome of one `decode_msg` call: the returned pair
`(consumed, result)`, the UBX frame fields in scope at a CSUM2 return
(`none` for every other return path), and whether the checksum-failure
diagnostic was written to stderr. -/
structure DecodeOut where
  consumed : Nat
  result : PyVal
  frame : Option UbxFrame
  ckDiag : Bool
deriving DecidableEq, Repr

/-- The byte loop of `ubx.decode_msg` of src/ubxtool.py, one constructor
branch per state, transcribed clause by clause from the source (the
`VERB_*` verbosity prints are side effects with no influence on the
returned value and are not modelled; the stderr checksum diagnostic is
recorded in `ckDiag`).  Falling out of the loop returns `(0, 0)`; a CR/LF
in state BASE returns the constant pair `(1, 0)`; a byte that matches no
clause of its state (only possible in HEADER1) hits the final give-up
clause, which resets the state to BASE. -/
def decode_aux : List Nat → Mode → DecSt → Nat → DecodeOut
  | [], _, _, _ => ⟨0, .int 0, none, false⟩
  | c :: rest, .BASE, _, consumed =>
    -- state BASE resets comment/m_class/m_id/m_len/m_raw/m_payload/m_ck_a
    -- before examining the byte, hence the fresh `initSt`
    if c = 0xb5 then decode_aux rest .HEADER1 initSt (consumed + 1)
    else if c = 0x24 then -- dollar sign
      decode_aux rest .NMEA { initSt with comment := "$" } (consumed + 1)
    else if c = 0x7b then -- left brace, JSON
      decode_aux rest .JSON { initSt with comment := "\x7b" } (consumed + 1)
    else if c = 0x23 then -- hash sign
      decode_aux rest .COMMENT { initSt with comment := "#" } (consumed + 1)
    else if c = 0xd3 then
      decode_aux rest .RTCM3_1 { initSt with comment := "#" } (consumed + 1)
    else if c = 10 ∨ c = 13 then ⟨1, .int 0, none, false⟩
    else decode_aux rest .BASE initSt (consumed + 1)
  | c :: rest, .COMMENT, st, consumed =>
    if c = 10 ∨ c = 13 then ⟨consumed + 1, .str st.comment, none, false⟩
    else decode_aux rest .COMMENT { st with comment := st.comment.push (Char.ofNat c) } (consumed + 1)
  | c :: rest, .JSON, st, consumed =>
    if c = 10 ∨ c = 13 then ⟨consumed + 1, .str st.comment, none, false⟩
    else decode_aux rest .JSON { st with comment := st.comment.push (Char.ofNat c) } (consumed + 1)
  | c :: rest, .NMEA, st, consumed =>
    if c = 10 ∨ c = 13 then ⟨consumed + 1, .str st.comment, none, false⟩
    else decode_aux rest .NMEA { st with comment := st.comment.push (Char.ofNat c) } (consumed + 1)
  | c :: rest, .RTCM3_1, st, consumed =>
    if c &&& 0xfc ≠ 0 then decode_aux rest .BASE st (consumed + 1)
    else decode_aux rest .RTCM3_2
      { st with m_len := c <<< 8, m_raw := st.m_raw ++ [c] } (consumed + 1)
  | c :: rest, .RTCM3_2, st, consumed =>
    decode_aux rest .RTCM3_PAYLOAD
      { st with m_len := (st.m_len ||| (0xff &&& c)) + 3, m_raw := st.m_raw ++ [c] } (consumed + 1)
  | c :: rest, .RTCM3_PAYLOAD, st, consumed =>
    -- the 12-bit RTCM type computed here in the source only feeds a
    -- verbosity-gated print; the state returns to BASE without returning
    let st' := { st with m_len := st.m_len - 1, m_raw := st.m_raw ++ [c],
                         m_payload := st.m_payload ++ [c] }
    if st'.m_len = 0 then decode_aux rest .BASE st' (consumed + 1)
    else decode_aux rest .RTCM3_PAYLOAD st' (consumed + 1)
  | c :: rest, .HEADER1, st, consumed =>
    if c = 0x62 then -- letter b
      decode_aux rest .HEADER2 st (consumed + 1)
    else -- give-up clause: back to BASE, byte consumed
      decode_aux rest .BASE st (consumed + 1)
  | c :: rest, .HEADER2, st, consumed =>
    decode_aux rest .CLASS { st with m_class := c, m_raw := st.m_raw ++ [c] } (consumed + 1)
  | c :: rest, .CLASS, st, consumed =>
    decode_aux rest .ID { st with m_id := c, m_raw := st.m_raw ++ [c] } (consumed + 1)
  | c :: rest, .ID, st, consumed =>
    decode_aux rest .LEN1 { st with m_len := c, m_raw := st.m_raw ++ [c] } (consumed + 1)
  | c :: rest, .LEN1, st, consumed =>
    let st' := { st with m_len := st.m_len + 256 * c, m_raw := st.m_raw ++ [c] }
    if st'.m_len = 0 then decode_aux rest .CSUM1 st' (consumed + 1)
    else decode_aux rest .PAYLOAD st' (consumed + 1)
  | c :: rest, .PAYLOAD, st, consumed =>
    let st' := { st with m_raw := st.m_raw ++ [c], m_payload := st.m_payload ++ [c] }
    if st'.m_payload.length = st.m_len then decode_aux rest .CSUM1 st' (consumed + 1)
    else decode_aux rest .PAYLOAD st' (consumed + 1)
  | c :: rest, .CSUM1, st, consumed =>
    decode_aux rest .CSUM2 { st with m_ck_a := c } (consumed + 1)
  | c :: _, .CSUM2, st, consumed =>
    let m_ck_b := c
    let chk := checksum st.m_raw st.m_raw.length
    ⟨consumed + 1,
     ubx_dispatch st.m_class st.m_id st.m_len st.m_payload,
     some ⟨st.m_class, st.m_id, st.m_len, st.m_payload, st.m_ck_a, m_ck_b⟩,
     (chk.1 != st.m_ck_a) || (chk.2 != m_ck_b)⟩

/-- `ubx.decode_msg(out)` of src/ubxtool.py: run the state machine from
state BASE over the whole buffer. -/
def decode_msg (out : List Nat) : DecodeOut := decode_aux out .BASE initSt 0

/-- Resuming a scan in state BASE with `k` bytes already consumed (what the
state machine does right after it finishes skipping an RTCM3 frame). -/
def decode_cont (k : Nat) (l : List Nat) : DecodeOut := decode_aux l .BASE initSt k

/-- The checksum `make_pkt` stamps on (and `decode_msg` recomputes for) a
frame with class `c`, id `i` and payload `P`: the checksum over
class+id+length+payload. -/
def frame_chk (c i : Nat) (P : List Nat) : Nat × Nat :=
  checksum ([c, i, P.length % 256, P.length / 256] ++ P) (4 + P.length)

/-- A complete UBX wire frame with arbitrary trailing checksum bytes
`ca`, `cb` (equal to `make_pkt c i P` when they are the genuine
checksum). -/
def frame_bytes (c i : Nat) (P : List Nat) (ca cb : Nat) : List Nat :=
  [0xb5, 0x62, c, i, P.length % 256, P.length / 256] ++ P ++ [ca, cb]

/-- The decoded dict built by `ubx.nav_hpposllh` (UBX-NAV-HPPOSLLH):
the raw unpacked integer fields plus the scaled `prec_*` values the
source adds afterwards. -/
structure HpData where
  version : Int
  iTow : Int
  lon : Int
  lat : Int
  height : Int
  hMSL : Int
  lonHp : Int
  latHp : Int
  heightHp : Int
  hMSLHp : Int
  hAcc : Int
  vAcc : Int
  prec_lon : Rat
  prec_lat : Rat
  prec_height : Rat
  prec_hMSL : Rat

/-- Return value of `ubx.nav_hpposllh`: a plain string for the poll /
bad-length cases, otherwise the data dict. -/
inductive HpResult
  | str (s : String)
  | data (d : HpData)

/-- The format string `"<BBBBLllllbbbbLL"` of `nav_hpposllh`. -/
def fmtHPPOSLLH : List PK :=
  [.B, .B, .B, .B, .L, .l, .l, .l, .l, .b, .b, .b, .b, .L, .L]

/-- `ubx.nav_hpposllh(buf)` of src/ubxtool.py: poll-request sentinel for
an empty payload, bad-length string below 36 bytes, otherwise unpack
`"<BBBBLllllbbbbLL"` at offset 0 and add the scaled values
`prec_lon = round((lon + lonHp*1E-2)*1E-7, 9)` (and analogously for
`prec_lat`, and `prec_height`/`prec_hMSL` with `1E-1`, `1E-3` and 4
digits). -/
def nav_hpposllh (buf : List Nat) : HpResult :=
  let m_len := buf.length
  if m_len = 0 then .str " Poll request"
  else if m_len < 36 then .str (" Bad Length " ++ toString m_len)
  else
    let u := fun k => (unpackFrom fmtHPPOSLLH buf 0).getD k 0
    let version := u 0
    let iTow := u 4
    let lon := u 5
    let lat := u 6
    let height := u 7
    let hMSL := u 8
    let lonHp := u 9
    let latHp := u 10
    let heightHp := u 11
    let hMSLHp := u 12
    let hAcc := u 13
    let vAcc := u 14
    .data
      { version := version, iTow := iTow, lon := lon, lat := lat,
        height := height, hMSL := hMSL, lonHp := lonHp, latHp := latHp,
        heightHp := heightHp, hMSLHp := hMSLHp, hAcc := hAcc, vAcc := vAcc,
        prec_lon := pyRound (((lon : Rat) + (lonHp : Rat) * ((1 : Rat)/100)) * ((1 : Rat)/10000000)) 9,
        prec_lat := pyRound (((lat : Rat) + (latHp : Rat) * ((1 : Rat)/100)) * ((1 : Rat)/10000000)) 9,
        prec_height := pyRound (((height : Rat) + (heightHp : Rat) * ((1 : Rat)/10)) * ((1 : Rat)/1000)) 4,
        prec_hMSL := pyRound (((hMSL : Rat) + (hMSLHp : Rat) * ((1 : Rat)/10)) * ((1 : Rat)/1000)) 4 }

/-- A Python scalar that is either a string or a boolean (the type of the
`carrSoln` entry of the UBX-NAV-PVT dict, which the source sets to
`Float`/`Fixed` or `False`). -/
inductive PyScalar
  | pstr (s : String)
  | pbool (b : Bool)
deriving DecidableEq, Repr

/-- The decoded dict built by `ubx.nav_pvt` (UBX-NAV-PVT): raw integer
fields, scaled rational fields (the source overwrites the raw values),
the named flag booleans, and the protocol-version-15 tail fields (present
only when the payload is at least 92 bytes). -/
structure PvtData where
  iTow : Int
  year : Int
  month : Int
  day : Int
  hour : Int
  minute : Int
  second : Int
  valid : Int
  tAcc : Int
  nano : Int
  fixType : Int
  flags : Int
  flags2 : Int
  numSV : Int
  lon : Rat
  lat : Rat
  height : Rat
  hMSL : Rat
  hAcc : Rat
  vAcc : Rat
  velN : Rat
  velE : Rat
  velD : Rat
  gSpeed : Rat
  headMot : Rat
  sAcc : Rat
  headAcc : Rat
  pDOP : Rat
  reserved1 : Int
  fixeType_str : Option String
  validDate : Bool
  validTime : Bool
  fullyResolved : Bool
  validMAg : Bool
  gnssFixOK : Bool
  diffSoln : Bool
  headVehValid : Bool
  carrSoln : PyScalar
  confirmedAvai : Bool
  confirmedDate : Bool
  confirmedTime : Bool
  headVeh : Option Rat
  magDec : Option Rat
  magAcc : Option Rat

/-- Return value of `ubx.nav_pvt`: a plain string for the poll /
bad-length cases, otherwise the data dict. -/
inductive PvtResult
  | str (s : String)
  | data (d : PvtData)

/-- The format string `"<LHBBBBBBLlBBBBllllLLlllllLLHHHH"` of `nav_pvt`. -/
def fmtPVT : List PK :=
  [.L, .H, .B, .B, .B, .B, .B, .B, .L, .l, .B, .B, .B, .B, .l, .l, .l, .l,
   .L, .L, .l, .l, .l, .l, .l, .L, .L, .H, .H, .H, .H]

/-- The `fix_type` lookup dict of `nav_pvt` (keys are the decimal string
of the fix type; `dict.get` yields `None` for any other value). -/
def pvt_fix_type (fixType : Int) : Option String :=
  if fixType = 0 then some "no fix"
  else if fixType = 1 then some "dead reckoning only"
  else if fixType = 2 then some "2D-fix"
  else if fixType = 3 then some "3D-fix"
  else if fixType = 4 then some "GNSS + dead reckoning combined"
  else if fixType = 5 then some "time only fix"
  else none

/-- `ubx.nav_pvt(buf)` of src/ubxtool.py: poll-request sentinel for an
empty payload, bad-length string below 84 bytes, otherwise unpack
`"<LHBBBBBBLlBBBBllllLLlllllLLHHHH"` at offset 0, scale the position /
velocity / heading / DOP fields, derive the named flag booleans by
masking `valid` and `flags` exactly as the source does (note: the source
masks the flags entry, not `flags2`, for the three `confirmed*`
fields, and assigns `carrSoln` twice so that the second assignment
overwrites the first), and for a payload of at least 92 bytes unpack
`"<lhH"` at offset 81 into the scaled `headVeh`/`magDec`/`magAcc`. -/
def nav_pvt (buf : List Nat) : PvtResult :=
  let m_len := buf.length
  if m_len = 0 then .str " Poll request"
  else if m_len < 84 then .str (" Bad Length " ++ toString m_len)
  else
    let u := fun k => (unpackFrom fmtPVT buf 0).getD k 0
    let iTow := u 0
    let year := u 1
    let month := u 2
    let day := u 3
    let hour := u 4
    let minute := u 5
    let second := u 6
    let valid := u 7
    let tAcc := u 8
    let nano := u 9
    let fixType := u 10
    let flags := u 11
    let flags2 := u 12
    let numSV := u 13
    let lon := u 14
    let lat := u 15
    let height := u 16
    let hMSL := u 17
    let hAcc := u 18
    let vAcc := u 19
    let velN := u 20
    let velE := u 21
    let velD := u 22
    let gSpeed := u 23
    let headMot := u 24
    let sAcc := u 25
    let headAcc := u 26
    let pDOP := u 27
    let reserved1 := u 28
    -- first assignment to carrSoln, overwritten by the next line of the
    -- source before the dict is returned
    let _carrSoln1 : PyScalar :=
      if Int.land flags 64 ≠ 0 then .pstr "Float" else .pbool false
    let carrSoln2 : PyScalar :=
      if Int.land flags 128 ≠ 0 then .pstr "Fixed" else .pbool false
    let tail92 :=
      if 92 ≤ m_len then
        let v := fun k => (unpackFrom [.l, .h, .H] buf 81).getD k 0
        (some (pyRound ((v 0 : Rat) * ((1 : Rat)/100000)) 5),
         some (pyRound ((v 1 : Rat) * ((1 : Rat)/100)) 2),
         some (pyRound ((v 2 : Rat) * ((1 : Rat)/100)) 2))
      else (none, none, none)
    .data
      { iTow := iTow, year := year, month := month, day := day,
        hour := hour, minute := minute, second := second, valid := valid,
        tAcc := tAcc, nano := nano, fixType := fixType, flags := flags,
        flags2 := flags2, numSV := numSV,
        lon := pyRound ((lon : Rat) * ((1 : Rat)/10000000)) 7,
        lat := pyRound ((lat : Rat) * ((1 : Rat)/10000000)) 7,
        height := pyRound ((height : Rat) * ((1 : Rat)/1000)) 3,
        hMSL := pyRound ((hMSL : Rat) * ((1 : Rat)/1000)) 3,
        hAcc := pyRound ((hAcc : Rat) * ((1 : Rat)/1000)) 3,
        vAcc := pyRound ((vAcc : Rat) * ((1 : Rat)/1000)) 3,
        velN := pyRound ((velN : Rat) * ((1 : Rat)/1000)) 3,
        velE := pyRound ((velE : Rat) * ((1 : Rat)/1000)) 3,
        velD := pyRound ((velD : Rat) * ((1 : Rat)/1000)) 3,
        gSpeed := pyRound ((gSpeed : Rat) * ((1 : Rat)/1000)) 3,
        headMot := pyRound ((headMot : Rat) * ((1 : Rat)/100000)) 5,
        sAcc := pyRound ((sAcc : Rat) * ((1 : Rat)/1000)) 3,
        headAcc := pyRound ((headAcc : Rat) * ((1 : Rat)/100000)) 5,
        pDOP := pyRound ((pDOP : Rat) * ((1 : Rat)/100)) 2,
        reserved1 := reserved1,
        fixeType_str := pvt_fix_type fixType,
        validDate := Int.land valid 1 ≠ 0,
        validTime := Int.land valid 2 ≠ 0,
        fullyResolved := Int.land valid 4 ≠ 0,
        validMAg := Int.land valid 8 ≠ 0,
        gnssFixOK := Int.land flags 1 ≠ 0,
        diffSoln := Int.land flags 2 ≠ 0,
        headVehValid := Int.land flags 32 ≠ 0,
        carrSoln := carrSoln2,
        -- the source masks `flags` (not `flags2`) for the three
        -- `confirmed*` fields, despite its own `#flags2 flags` comment
        confirmedAvai := Int.land flags 32 ≠ 0,
        confirmedDate := Int.land flags 64 ≠ 0,
        confirmedTime := Int.land flags 128 ≠ 0,
        headVeh := tail92.1, magDec := tail92.2.1, magAcc := tail92.2.2 }

/-- The `carrSoln` entry of a decoded UBX-NAV-PVT dict (arbitrary default
on the string results, which carry no such entry). -/
def pvtCarrSoln : PvtResult → PyScalar
  | .data d => d.carrSoln
  | .str _ => .pbool false

/-- The `confirmedAvai` entry of a decoded UBX-NAV-PVT dict. -/
def pvtConfirmedAvai : PvtResult → Bool
  | .data d => d.confirmedAvai
  | .str _ => false

/-- The `confirmedDate` entry of a decoded UBX-NAV-PVT dict. -/
def pvtConfirmedDate : PvtResult → Bool
  | .data d => d.confirmedDate
  | .str _ => false

/-- The `confirmedTime` entry of a decoded UBX-NAV-PVT dict. -/
def pvtConfirmedTime : PvtResult → Bool
  | .data d => d.confirmedTime
  | .str _ => false

/-- Written from the spec sentence of claim C8: the signed 32-bit
little-endian field at byte offset 8 of the payload (`lon`). -/
def spec_lon (buf : List Nat) : Int :=
  let w := buf.getD 8 0 + 256 * buf.getD 9 0 + 65536 * buf.getD 10 0
    + 16777216 * buf.getD 11 0
  if w < 2147483648 then (w : Int) else (w : Int) - 4294967296

/-- Written from the spec sentence of claim C8: the signed 8-bit field at
byte offset 24 of the payload (`lonHp`). -/
def spec_lonHp (buf : List Nat) : Int :=
  let w := buf.getD 24 0
  if w < 128 then (w : Int) else (w : Int) - 256

/-- Written from the spec sentence of claim C8: the signed 32-bit
little-endian field at byte offset 12 of the payload (`lat`). -/
def spec_lat (buf : List Nat) : Int :=
  let w := buf.getD 12 0 + 256 * buf.getD 13 0 + 65536 * buf.getD 14 0
    + 16777216 * buf.getD 15 0
  if w < 2147483648 then (w : Int) else (w : Int) - 4294967296

/-- Written from the spec sentence of claim C8: the signed 8-bit field at
byte offset 25 of the payload (`latHp`). -/
def spec_latHp (buf : List Nat) : Int :=
  let w := buf.getD 25 0
  if w < 128 then (w : Int) else (w : Int) - 256

/-- Written from the spec sentence of claim C8:
`prec_lon = round((lon + lonHp*1e-2)*1e-7, 9)`. -/
def spec_prec_lon (buf : List Nat) : Rat :=
  pyRound (((spec_lon buf : Rat) + (spec_lonHp buf : Rat) * ((1 : Rat)/100)) * ((1 : Rat)/10000000)) 9

/-- Written from the spec sentence of claim C8: `prec_lat` analogously. -/
def spec_prec_lat (buf : List Nat) : Rat :=
  pyRound (((spec_lat buf : Rat) + (spec_latHp buf : Rat) * ((1 : Rat)/100)) * ((1 : Rat)/10000000)) 9

/-- Whether a `nav_pvt` result is the decoded data dict (rather than one
of the poll/bad-length strings). -/
def pvtIsData : PvtResult → Bool
  | .data _ => true
  | .str _ => false

/-- A 36-byte UBX-NAV-HPPOSLLH payload with raw `lon = -741234567`
(bytes 8-11, little-endian twos complement) and `lonHp = 23` (byte 24) —
the concrete example of claim C8. -/
def hpExampleBuf : List Nat :=
  [0, 0, 0, 0, 0, 0, 0, 0,
   121, 168, 209, 211,
   0, 0, 0, 0, 0, 0, 0, 0, 0, 0, 0, 0,
   23, 0, 0, 0, 0, 0, 0, 0, 0, 0, 0, 0]

/-- An 84-byte UBX-NAV-PVT payload whose `flags2` byte (offset 22) has
bits 5-7 set while the `flags` byte (offset 21) is zero. -/
def pvtFlags2Buf : List Nat :=
  List.replicate 22 0 ++ [224] ++ List.replicate 61 0

/-- An 84-byte UBX-NAV-PVT payload whose `flags` byte (offset 21) has
bits 5-7 set while the `flags2` byte (offset 22) is zero. -/
def pvtFlagsBuf : List Nat :=
  List.replicate 21 0 ++ [224] ++ List.replicate 62 0

/-- An 84-byte UBX-NAV-PVT payload whose `flags` byte (offset 21) has
bit 7 (carrier-phase fixed) set. -/
def pvtFixedCarrBuf : List Nat :=
  List.replicate 21 0 ++ [128] ++ List.replicate 62 0

/-! Theorems.  First the helper lemmas about the state machine, then one
theorem (plus witness / counterexample where applicable) per claim. -/

theorem decode_aux_nil (mode : Mode) (st : DecSt) (consumed : Nat) :
    decode_aux [] mode st consumed = ⟨0, .int 0, none, false⟩ := rfl

theorem decode_aux_base_state (l : List Nat) (st₁ st₂ : DecSt) (k : Nat) :
    decode_aux l .BASE st₁ k = decode_aux l .BASE st₂ k := by
  cases l <;> rfl

theorem checksum_fold_mod (l : List Nat) : ∀ a b : Nat,
    ((l.foldl (fun (p : Nat × Nat) c => (p.1 + c, p.2 + (p.1 + c))) (a, b)).1 % 256,
     (l.foldl (fun (p : Nat × Nat) c => (p.1 + c, p.2 + (p.1 + c))) (a, b)).2 % 256) =
      l.foldl (fun p c => let x := (p.1 + c) % 256; (x, (p.2 + x) % 256)) (a % 256, b % 256) := by
  induction l with
  | nil => intro a b; rfl
  | cons c l ih =>
    intro a b
    simp only [List.foldl_cons]
    rw [ih]
    simp [Nat.mod_add_mod, Nat.add_mod_mod]

/-- C7: the accumulate-then-mask checksum of the source equals the
mod-at-every-step fold of the spec, for every byte sequence. -/
theorem claim_C7_checksum_fold (msg : List Nat) :
    checksum msg msg.length = checksum_spec_fold msg := by
  unfold checksum checksum_spec_fold
  rw [List.take_length msg]
  simpa using checksum_fold_mod msg 0 0

set_option maxRecDepth 40000 in
/-- C3: `cfg_by_key` does not return a synthesized item for an unknown
key — the fallback branch evaluates the undefined name `ket` and raises
`NameError` (here the `.error` value), as evaluated at the unknown key
`0x10000000`; a registered key (here `CFG-GEOFENCE-CONFLVL`,
`0x20240011`) is still found by the linear scan. -/
theorem claim_C3_cfg_by_key :
    cfg_by_key 0x10000000 = .error "NameError: name \x27ket\x27 is not defined" ∧
    cfg_by_key 0x20240011 =
      .ok ⟨"CFG-GEOFENCE-CONFLVL", 0x20240011, "E1", 1, "",
        "Required confidence level for state evaluation"⟩ :=
  ⟨rfl, rfl⟩

theorem header6_scan (c i lo hi : Nat) (rest : List Nat) (st : DecSt) (consumed : Nat) :
    decode_aux (0xb5 :: 0x62 :: c :: i :: lo :: hi :: rest) .BASE st consumed =
      decode_aux rest (if lo + 256 * hi = 0 then .CSUM1 else .PAYLOAD)
        ⟨"", c, i, lo + 256 * hi, [c, i, lo, hi], [], 0⟩ (consumed + 6) := by
  simp only [decode_aux, initSt]
  norm_num
  split <;> ring_nf

theorem payload_scan (Q : List Nat) : ∀ (st : DecSt) (tail : List Nat) (consumed : Nat),
    Q ≠ [] → st.m_len = st.m_payload.length + Q.length →
    decode_aux (Q ++ tail) .PAYLOAD st consumed =
      decode_aux tail .CSUM1
        { st with m_raw := st.m_raw ++ Q, m_payload := st.m_payload ++ Q }
        (consumed + Q.length) := by
  induction Q with
  | nil => intro _ _ _ h _; exact absurd rfl h
  | cons c Q ih =>
    intro st tail consumed _ hlen
    simp only [List.cons_append, List.append_eq, decode_aux]
    rcases Q with _ | ⟨d, Q⟩
    · rw [if_pos (by simp at hlen ⊢; omega)]
      simp
    · rw [if_neg (by simp at hlen ⊢; omega)]
      rw [ih { st with m_raw := st.m_raw ++ [c], m_payload := st.m_payload ++ [c] }
            tail (consumed + 1) (by simp) (by simp at hlen ⊢; omega)]
      congr 1
      · simp
      · simp
        omega

theorem payload_incomplete (Q : List Nat) : ∀ (st : DecSt) (consumed : Nat),
    Q.length + st.m_payload.length < st.m_len →
    decode_aux Q .PAYLOAD st consumed = ⟨0, .int 0, none, false⟩ := by
  induction Q with
  | nil => intro st consumed _; rfl
  | cons c Q ih =>
    intro st consumed hlen
    simp only [decode_aux]
    rw [if_neg (by simp at hlen ⊢; omega)]
    exact ih _ (consumed + 1) (by simp at hlen ⊢; omega)

theorem csum_tail (ca cb : Nat) (rest : List Nat) (st : DecSt) (consumed : Nat) :
    decode_aux (ca :: cb :: rest) .CSUM1 st consumed =
      ⟨consumed + 2,
       ubx_dispatch st.m_class st.m_id st.m_len st.m_payload,
       some ⟨st.m_class, st.m_id, st.m_len, st.m_payload, ca, cb⟩,
       ((checksum st.m_raw st.m_raw.length).1 != ca) ||
         ((checksum st.m_raw st.m_raw.length).2 != cb)⟩ := by
  simp only [decode_aux]

theorem make_pkt_length (c i : Nat) (P : List Nat) :
    (make_pkt c i P).length = 8 + P.length := by
  simp [make_pkt]
  omega

theorem make_pkt_eq_frame_bytes (c i : Nat) (P : List Nat) :
    make_pkt c i P =
      frame_bytes c i P (frame_chk c i P).1 (frame_chk c i P).2 := by
  simp [make_pkt, frame_bytes, frame_chk, Nat.add_comm]

theorem frame_scan (c i : Nat) (P : List Nat) (ca cb : Nat) :
    decode_msg (frame_bytes c i P ca cb) =
      ⟨8 + P.length, ubx_dispatch c i P.length P,
       some ⟨c, i, P.length, P, ca, cb⟩,
       ((frame_chk c i P).1 != ca) || ((frame_chk c i P).2 != cb)⟩ := by
  have hlh : P.length % 256 + 256 * (P.length / 256) = P.length :=
    Nat.mod_add_div P.length 256
  rw [decode_msg, frame_bytes]
  rw [List.append_assoc]
  simp only [List.cons_append, List.nil_append]
  rw [header6_scan, hlh]
  rcases P with _ | ⟨b, Q⟩
  · rw [if_pos (show List.length ([] : List Nat) = 0 from rfl)]
    simp only [List.nil_append]
    rw [csum_tail]
    simp [frame_chk]
  · rw [if_neg (by simp)]
    rw [payload_scan (b :: Q) _ [ca, cb] _ (by simp) (by simp)]
    rw [csum_tail]
    simp [frame_chk, Nat.add_assoc, Nat.add_comm, Nat.add_left_comm]

theorem rtcm_skip (Q : List Nat) : ∀ (st : DecSt) (tail : List Nat) (consumed : Nat),
    Q ≠ [] → st.m_len = Q.length →
    decode_aux (Q ++ tail) .RTCM3_PAYLOAD st consumed =
      decode_aux tail .BASE
        { st with m_len := 0, m_raw := st.m_raw ++ Q, m_payload := st.m_payload ++ Q }
        (consumed + Q.length) := by
  induction Q with
  | nil => intro _ _ _ h _; exact absurd rfl h
  | cons c Q ih =>
    intro st tail consumed _ hlen
    simp only [List.cons_append, List.append_eq, decode_aux]
    rcases Q with _ | ⟨d, Q⟩
    · rw [if_pos (by simp at hlen ⊢; omega)]
      have h0 : st.m_len - 1 = 0 := by simp at hlen; omega
      simp [h0]
    · rw [if_neg (by simp at hlen ⊢; omega)]
      rw [ih { st with m_len := st.m_len - 1, m_raw := st.m_raw ++ [c], m_payload := st.m_payload ++ [c] } tail (consumed + 1) (by simp) (by simp at hlen ⊢; omega)]
      congr 1
      · simp
      · simp
        omega

theorem rtcm_frame_scan (c2 c3 : Nat) (Q rest : List Nat)
    (h2 : c2 &&& 0xfc = 0) (hQ : Q.length = ((c2 <<< 8) ||| (0xff &&& c3)) + 3) :
    decode_aux ((0xd3 :: c2 :: c3 :: Q) ++ rest) .BASE initSt 0 =
      decode_cont (3 + Q.length) rest := by
  have step1 : decode_aux ((0xd3 :: c2 :: c3 :: Q) ++ rest) .BASE initSt 0 =
      decode_aux ((c2 :: c3 :: Q) ++ rest) .RTCM3_1 { initSt with comment := "#" } 1 := rfl
  have step2 : decode_aux ((c2 :: c3 :: Q) ++ rest) .RTCM3_1 { initSt with comment := "#" } 1 =
      decode_aux ((c3 :: Q) ++ rest) .RTCM3_2
        { initSt with comment := "#", m_len := c2 <<< 8, m_raw := [c2] } 2 := by
    simp only [List.cons_append, decode_aux]
    rw [if_neg (by simp [h2])]
    simp [initSt]
  have step3 : decode_aux ((c3 :: Q) ++ rest) .RTCM3_2
        { initSt with comment := "#", m_len := c2 <<< 8, m_raw := [c2] } 2 =
      decode_aux (Q ++ rest) .RTCM3_PAYLOAD
        { initSt with comment := "#", m_len := ((c2 <<< 8) ||| (0xff &&& c3)) + 3, m_raw := [c2, c3] } 3 := by
    simp only [List.cons_append, decode_aux]
    simp [initSt]
  rw [step1, step2, step3]
  rw [rtcm_skip Q _ rest 3 (by intro h; rw [h] at hQ; simp at hQ) (by simp [hQ.symm])]
  rw [decode_cont]
  rw [decode_aux_base_state rest _ initSt]

/-- C2: contrary to the claim, completing an RTCM3 frame does not return
`(bytesScanned, RtcmFrame)`: once the counted length reaches 0 the state
machine goes back to BASE and keeps scanning (the 12-bit type is computed
only for a verbosity-gated print), so the scan resumes after the frame
with only the consumed count carried over; in particular a buffer that is
exactly one complete RTCM3 frame yields `(0, empty)`. -/
theorem claim_C2_rtcm_skip (c2 c3 : Nat) (Q rest : List Nat)
    (h2 : c2 &&& 0xfc = 0) (hQ : Q.length = ((c2 <<< 8) ||| (0xff &&& c3)) + 3) :
    decode_msg ((0xd3 :: c2 :: c3 :: Q) ++ rest) = decode_cont (3 + Q.length) rest ∧
    decode_msg (0xd3 :: c2 :: c3 :: Q) = ⟨0, .int 0, none, false⟩ := by
  constructor
  · exact rtcm_frame_scan c2 c3 Q rest h2 hQ
  · have h := rtcm_frame_scan c2 c3 Q [] h2 hQ
    rw [List.append_nil] at h
    exact h

theorem claim_C2_rtcm_skip_witness :
    decode_msg ((0xd3 :: 0 :: 1 :: [9, 9, 9, 9]) ++ [13]) =
      decode_cont (3 + [9, 9, 9, 9].length) [13] ∧
    decode_msg (0xd3 :: 0 :: 1 :: [9, 9, 9, 9]) = ⟨0, .int 0, none, false⟩ :=
  claim_C2_rtcm_skip 0 1 [9, 9, 9, 9] [13] (by decide) (by decide)

/-- C2 counterexample: a buffer holding exactly one complete RTCM3 frame
(lead-in `0xd3`, valid zero bits, 10-bit length 1, one payload byte,
three CRC bytes) makes `decode_msg` return consumed = 0 with the empty
result — not `bytesScanned >= 1` with an RTCM frame as the claim
states. -/
theorem claim_C2_rtcm_skip_cex :
    decode_msg [0xd3, 0, 1, 0xab, 1, 2, 3] = ⟨0, .int 0, none, false⟩ := by decide

theorem ubx_dispatch_cases (c i m_len : Nat) (P : List Nat) :
    (hasEntry c i = true → hasDec c i = false →
      ubx_dispatch c i m_len P =
        .str (class_id_s c i ++ ", len " ++ pyHashHex m_len ++ ", raw " ++ hexCommas P)) ∧
    (hasEntry c i = false → ubx_dispatch c i m_len P = .str (hexSpaced P)) := by
  unfold ubx_dispatch hasEntry hasDec
  rcases h1 : classFind c with _ | cl <;> simp only [h1]
  · simp
  · rcases h2 : cl.ids with _ | t <;> simp only [h2]
    · simp
    · rcases h3 : idFind t i with _ | ent <;> simp only [h3]
      · simp
      · rcases h4 : ent.dec with _ | d <;> simp only [h4] <;> simp

/-- C5: corrected no-decoder fallback.  For a complete, checksum-clean
frame whose (class, id) has a dispatch-table entry without a decoder, the
result is the labelled string `class_id_s ++ ", len %#x, raw <hex>"`; but
when the class or the id is not registered at all (no table entry), the
result is only the space-separated hex payload dump — it carries no
class/id label and no length. -/
theorem claim_C5_fallback (c i : Nat) (P : List Nat) (ca cb : Nat) :
    (hasEntry c i = true → hasDec c i = false →
      (decode_msg (frame_bytes c i P ca cb)).result =
        .str (class_id_s c i ++ ", len " ++ pyHashHex P.length ++ ", raw " ++ hexCommas P)) ∧
    (hasEntry c i = false →
      (decode_msg (frame_bytes c i P ca cb)).result = .str (hexSpaced P)) := by
  rw [frame_scan]
  exact ubx_dispatch_cases c i P.length P

theorem claim_C5_fallback_witness :
    (decode_msg (frame_bytes 1 5 [7] 0 0)).result =
      .str (class_id_s 1 5 ++ ", len " ++ pyHashHex [7].length ++ ", raw " ++ hexCommas [7]) ∧
    (decode_msg (frame_bytes 0xee 0 [7] 0 0)).result = .str (hexSpaced [7]) :=
  ⟨(claim_C5_fallback 1 5 [7] 0 0).1 (by decide) (by decide),
   (claim_C5_fallback 0xee 0 [7] 0 0).2 (by decide)⟩

/-- C5 counterexample: the frame built by `make_pkt` for the unregistered
class `0xff`, id 0, payload `[0xab]` is complete and checksum-verified,
has no registered payload decoder, and decodes to the bare hex string
"ab " — a result that does not carry the `class_id_s` label or the length
the claim requires of the raw fallback. -/
theorem claim_C5_fallback_cex :
    (decode_msg (make_pkt 0xff 0 [0xab])).result = PyVal.str "ab " ∧
    PyVal.str "ab " ≠
      PyVal.str (class_id_s 0xff 0 ++ ", len " ++ pyHashHex 1 ++ ", raw " ++ hexCommas [0xab]) := by
  constructor
  · decide
  · decide


theorem text_incomplete (body : List Nat) : ∀ (mode : Mode) (st : DecSt) (consumed : Nat),
    (mode = Mode.NMEA ∨ mode = Mode.COMMENT ∨ mode = Mode.JSON) →
    (∀ b ∈ body, b ≠ 10 ∧ b ≠ 13) →
    decode_aux body mode st consumed = ⟨0, .int 0, none, false⟩ := by
  induction body with
  | nil => intro mode st consumed hm _; rcases hm with h | h | h <;> subst h <;> rfl
  | cons c body ih =>
    intro mode st consumed hm hb
    have hc : ¬(c = 10 ∨ c = 13) := by
      have h2 := hb c (by simp)
      rintro (h | h)
      · exact h2.1 h
      · exact h2.2 h
    have hb2 : ∀ b ∈ body, b ≠ 10 ∧ b ≠ 13 := fun b hmem => hb b (by simp [hmem])
    rcases hm with h | h | h <;> subst h <;> simp only [decode_aux] <;>
      rw [if_neg hc]
    · exact ih _ _ _ (Or.inl rfl) hb2
    · exact ih _ _ _ (Or.inr (Or.inl rfl)) hb2
    · exact ih _ _ _ (Or.inr (Or.inr rfl)) hb2

theorem rtcm_incomplete (Q : List Nat) : ∀ (st : DecSt) (consumed : Nat),
    Q.length < st.m_len →
    decode_aux Q .RTCM3_PAYLOAD st consumed = ⟨0, .int 0, none, false⟩ := by
  induction Q with
  | nil => intro _ _ _; rfl
  | cons c Q ih =>
    intro st consumed h
    simp only [decode_aux]
    rw [if_neg (by simp at h ⊢; omega)]
    exact ih _ (consumed + 1) (by simp at h ⊢; omega)

theorem rtcm_head3 (c2 c3 : Nat) (l : List Nat) (h2 : c2 &&& 0xfc = 0) :
    decode_aux (0xd3 :: c2 :: c3 :: l) .BASE initSt 0 =
      decode_aux l .RTCM3_PAYLOAD
        { initSt with comment := "#", m_len := ((c2 <<< 8) ||| (0xff &&& c3)) + 3, m_raw := [c2, c3] } 3 := by
  have step1 : decode_aux (0xd3 :: c2 :: c3 :: l) .BASE initSt 0 =
      decode_aux (c2 :: c3 :: l) .RTCM3_1 { initSt with comment := "#" } 1 := rfl
  have step2 : decode_aux (c2 :: c3 :: l) .RTCM3_1 { initSt with comment := "#" } 1 =
      decode_aux (c3 :: l) .RTCM3_2
        { initSt with comment := "#", m_len := c2 <<< 8, m_raw := [c2] } 2 := by
    simp only [decode_aux]
    rw [if_neg (by simp [h2])]
    simp [initSt]
  have step3 : decode_aux (c3 :: l) .RTCM3_2
        { initSt with comment := "#", m_len := c2 <<< 8, m_raw := [c2] } 2 =
      decode_aux l .RTCM3_PAYLOAD
        { initSt with comment := "#", m_len := ((c2 <<< 8) ||| (0xff &&& c3)) + 3, m_raw := [c2, c3] } 3 := by
    simp only [decode_aux]
    simp [initSt]
  rw [step1, step2, step3]

/-- C6: a buffer holding only the first `k < total` bytes of a complete
frame of any kind makes `decode_msg` scan to the end and return
`(0, empty)` with no diagnostic — the decoder is a total function, so
nothing is raised.  The four frame kinds: a UBX frame built by `make_pkt`
(length fitting uint16); an RTCM3 frame (lead-in `0xd3`, valid zero bits,
10-bit length plus 3 CRC bytes); an NMEA, JSON or comment line (lead-in
`$`, left brace or `#`, terminator-free body, CR or LF terminator).  And
the corrupt buffer `b5 62 01 07 ff ff` + 16 bytes + CR (declared length
0xffff exceeding the available payload) likewise returns `(0, empty)`
instead of hanging or returning early. -/
theorem claim_C6_partial_frames :
    (∀ (c i : Nat) (P : List Nat) (k : Nat), P.length < 65536 →
        k < (make_pkt c i P).length →
        decode_msg (List.take k (make_pkt c i P)) = ⟨0, .int 0, none, false⟩) ∧
    (∀ (c2 c3 : Nat) (Q : List Nat) (k : Nat), c2 &&& 0xfc = 0 →
        Q.length = ((c2 <<< 8) ||| (0xff &&& c3)) + 3 →
        k < (0xd3 :: c2 :: c3 :: Q).length →
        decode_msg (List.take k (0xd3 :: c2 :: c3 :: Q)) = ⟨0, .int 0, none, false⟩) ∧
    (∀ (lead : Nat) (body : List Nat) (term k : Nat),
        (lead = 0x24 ∨ lead = 0x7b ∨ lead = 0x23) →
        (∀ b ∈ body, b ≠ 10 ∧ b ≠ 13) →
        (term = 10 ∨ term = 13) →
        k < (lead :: body ++ [term]).length →
        decode_msg (List.take k (lead :: body ++ [term])) = ⟨0, .int 0, none, false⟩) ∧
    decode_msg ([0xb5, 0x62, 0x01, 0x07, 0xff, 0xff] ++ List.replicate 16 0 ++ [0x0d]) =
      ⟨0, .int 0, none, false⟩ := by
  refine ⟨?_, ?_, ?_, ?_⟩
  · intro c i P k hlen hk
    rw [make_pkt_length] at hk
    rw [make_pkt_eq_frame_bytes]
    generalize (frame_chk c i P).1 = ca
    generalize (frame_chk c i P).2 = cb
    rw [frame_bytes]
    rcases Nat.lt_or_ge k 7 with h7 | h7
    · interval_cases k
      · rfl
      · rfl
      · rfl
      · rfl
      · rfl
      · rfl
      · -- k = 6: the prefix is exactly the six header bytes
        rw [List.take_append_of_le_length (by simp),
            List.take_append_of_le_length (by simp)]
        rw [show List.take 6 [0xb5, 0x62, c, i, P.length % 256, P.length / 256] =
              [0xb5, 0x62, c, i, P.length % 256, P.length / 256] from rfl]
        rw [decode_msg]
        rw [show ([0xb5, 0x62, c, i, P.length % 256, P.length / 256] : List Nat) =
              0xb5 :: 0x62 :: c :: i :: P.length % 256 :: P.length / 256 :: [] from rfl]
        rw [header6_scan]
        split <;> rfl
    · obtain ⟨j, rfl⟩ : ∃ j, k = 6 + j := ⟨k - 6, by omega⟩
      have hj1 : 1 ≤ j := by omega
      have hj : j < P.length + 2 := by omega
      rw [List.append_assoc]
      rw [show (6 : Nat) + j =
            List.length ([0xb5, 0x62, c, i, P.length % 256, P.length / 256] : List Nat) + j by simp]
      rw [List.take_append]
      rw [decode_msg]
      rw [show (([0xb5, 0x62, c, i, P.length % 256, P.length / 256] : List Nat) ++
            List.take j (P ++ [ca, cb])) =
            0xb5 :: 0x62 :: c :: i :: P.length % 256 :: P.length / 256 ::
              List.take j (P ++ [ca, cb]) from rfl]
      rw [header6_scan]
      rw [Nat.mod_add_div]
      rcases Nat.lt_or_ge j (P.length + 1) with hjp | hjp
      · have hjP : j ≤ P.length := by omega
        rw [List.take_append_of_le_length hjP]
        rcases Nat.eq_zero_or_pos P.length with h0 | hpos
        · omega
        · rw [if_neg (by omega)]
          rcases Nat.lt_or_ge j P.length with hlt | hge
          · exact payload_incomplete _ _ _ (by simp [List.length_take]; omega)
          · have hjeq : j = P.length := by omega
            subst hjeq
            rw [List.take_length]
            rw [← List.append_nil P]
            rw [payload_scan P _ [] _ (List.length_pos.mp hpos) (by simp)]
            rfl
      · have hjeq : j = P.length + 1 := by omega
        subst hjeq
        rw [List.take_append]
        rw [show List.take 1 [ca, cb] = [ca] from rfl]
        rcases Nat.eq_zero_or_pos P.length with h0 | hpos
        · have hP0 : P = [] := List.eq_nil_of_length_eq_zero h0
          subst hP0
          rfl
        · rw [if_neg (by omega)]
          rw [payload_scan P _ [ca] _ (List.length_pos.mp hpos) (by simp)]
          rfl
  · intro c2 c3 Q k h2 hQ hk
    simp only [List.length_cons] at hk
    rcases Nat.lt_or_ge k 3 with h3 | h3
    · interval_cases k
      · rfl
      · rfl
      · -- k = 2 : the buffer ends inside state RTCM3_1
        rw [show List.take 2 (0xd3 :: c2 :: c3 :: Q) = [0xd3, c2] from rfl]
        rw [decode_msg]
        rw [show decode_aux [0xd3, c2] .BASE initSt 0 =
              decode_aux [c2] .RTCM3_1 { initSt with comment := "#" } 1 from rfl]
        simp only [decode_aux]
        split <;> rfl
    · obtain ⟨j, rfl⟩ : ∃ j, k = 3 + j := ⟨k - 3, by omega⟩
      have hj : j < Q.length := by omega
      rw [show (0xd3 :: c2 :: c3 :: Q) = [0xd3, c2, c3] ++ Q from rfl]
      rw [show (3 : Nat) + j = List.length ([0xd3, c2, c3] : List Nat) + j by simp]
      rw [List.take_append]
      rw [decode_msg]
      rw [show (([0xd3, c2, c3] : List Nat) ++ List.take j Q) =
            0xd3 :: c2 :: c3 :: List.take j Q from rfl]
      rw [rtcm_head3 c2 c3 _ h2]
      exact rtcm_incomplete _ _ _ (by simp [List.length_take]; omega)
  · intro lead body term k hlead hbody hterm hk
    simp only [List.length_cons, List.length_append, List.length_nil] at hk
    rcases Nat.eq_zero_or_pos k with h0 | hpos
    · subst h0; rfl
    · obtain ⟨j, rfl⟩ : ∃ j, k = 1 + j := ⟨k - 1, by omega⟩
      have hj : j ≤ body.length := by omega
      have hsplit : List.take (1 + j) (lead :: body ++ [term]) = lead :: List.take j body := by
        rw [show (lead :: body ++ [term]) = [lead] ++ (body ++ [term]) from rfl]
        rw [show (1 : Nat) + j = List.length ([lead] : List Nat) + j by simp]
        rw [List.take_append]
        rw [List.take_append_of_le_length hj]
        rfl
      rw [hsplit, decode_msg]
      have hmem : ∀ b ∈ List.take j body, b ≠ 10 ∧ b ≠ 13 :=
        fun b hb => hbody b (List.take_subset j body hb)
      rcases hlead with h | h | h <;> subst h
      · rw [show decode_aux (0x24 :: List.take j body) .BASE initSt 0 =
              decode_aux (List.take j body) .NMEA { initSt with comment := "$" } 1 from rfl]
        exact text_incomplete _ _ _ _ (Or.inl rfl) hmem
      · rw [show decode_aux (0x7b :: List.take j body) .BASE initSt 0 =
              decode_aux (List.take j body) .JSON { initSt with comment := "\x7b" } 1 from rfl]
        exact text_incomplete _ _ _ _ (Or.inr (Or.inr rfl)) hmem
      · rw [show decode_aux (0x23 :: List.take j body) .BASE initSt 0 =
              decode_aux (List.take j body) .COMMENT { initSt with comment := "#" } 1 from rfl]
        exact text_incomplete _ _ _ _ (Or.inr (Or.inl rfl)) hmem
  · decide

theorem claim_C6_partial_frames_witness :
    decode_msg (List.take 9 (make_pkt 1 7 [5, 6, 7])) = ⟨0, .int 0, none, false⟩ ∧
    decode_msg (List.take 5 (0xd3 :: 0 :: 1 :: [9, 8, 7, 6])) = ⟨0, .int 0, none, false⟩ ∧
    decode_msg (List.take 3 (0x24 :: [71, 80] ++ [13])) = ⟨0, .int 0, none, false⟩ :=
  ⟨claim_C6_partial_frames.1 1 7 [5, 6, 7] 9 (by decide) (by decide),
   claim_C6_partial_frames.2.1 0 1 [9, 8, 7, 6] 5 (by decide) (by decide) (by decide),
   claim_C6_partial_frames.2.2.1 0x24 [71, 80] 13 3 (Or.inl rfl) (by decide) (Or.inr rfl)
     (by decide)⟩


theorem hp_unpack_lon (buf : List Nat) :
    (unpackFrom fmtHPPOSLLH buf 0).getD 5 0 = toSigned 4 (readLE buf 8 4) := rfl

theorem hp_unpack_lat (buf : List Nat) :
    (unpackFrom fmtHPPOSLLH buf 0).getD 6 0 = toSigned 4 (readLE buf 12 4) := rfl

theorem hp_unpack_lonHp (buf : List Nat) :
    (unpackFrom fmtHPPOSLLH buf 0).getD 9 0 = toSigned 1 (readLE buf 24 1) := rfl

theorem hp_unpack_latHp (buf : List Nat) :
    (unpackFrom fmtHPPOSLLH buf 0).getD 10 0 = toSigned 1 (readLE buf 25 1) := rfl

theorem spec_lon_eq (buf : List Nat) : spec_lon buf = toSigned 4 (readLE buf 8 4) := by
  have h : readLE buf 8 4 =
      buf.getD 8 0 + 256 * buf.getD 9 0 + 65536 * buf.getD 10 0 + 16777216 * buf.getD 11 0 := by
    simp [readLE]; ring
  unfold spec_lon toSigned
  rw [h]
  norm_num

theorem spec_lat_eq (buf : List Nat) : spec_lat buf = toSigned 4 (readLE buf 12 4) := by
  have h : readLE buf 12 4 =
      buf.getD 12 0 + 256 * buf.getD 13 0 + 65536 * buf.getD 14 0 + 16777216 * buf.getD 15 0 := by
    simp [readLE]; ring
  unfold spec_lat toSigned
  rw [h]
  norm_num

theorem spec_lonHp_eq (buf : List Nat) : spec_lonHp buf = toSigned 1 (readLE buf 24 1) := by
  have h : readLE buf 24 1 = buf.getD 24 0 := by simp [readLE]
  unfold spec_lonHp toSigned
  rw [h]
  norm_num

theorem spec_latHp_eq (buf : List Nat) : spec_latHp buf = toSigned 1 (readLE buf 25 1) := by
  have h : readLE buf 25 1 = buf.getD 25 0 := by simp [readLE]
  unfold spec_latHp toSigned
  rw [h]
  norm_num

/-- C8: for every UBX-NAV-HPPOSLLH payload of at least 36 bytes the
decoder returns the data dict, whose `prec_lon` equals
`round((lon + lonHp*1e-2)*1e-7, 9)` with `lon` the signed 32-bit
little-endian field at offset 8 and `lonHp` the signed 8-bit field at
offset 24 (and `prec_lat` analogously at offsets 12 / 25), the
right-hand sides written from the spec sentence. -/
theorem claim_C8_hpposllh (buf : List Nat) (h36 : 36 ≤ buf.length) :
    ∃ d, nav_hpposllh buf = .data d ∧
      d.prec_lon = spec_prec_lon buf ∧ d.prec_lat = spec_prec_lat buf := by
  unfold nav_hpposllh
  rw [if_neg (by omega), if_neg (by omega)]
  refine ⟨_, rfl, ?_, ?_⟩
  · dsimp only
    unfold spec_prec_lon
    rw [hp_unpack_lon, hp_unpack_lonHp, spec_lon_eq, spec_lonHp_eq]
  · dsimp only
    unfold spec_prec_lat
    rw [hp_unpack_lat, hp_unpack_latHp, spec_lat_eq, spec_latHp_eq]

theorem claim_C8_hpposllh_witness :
    36 ≤ hpExampleBuf.length ∧
    (∃ d, nav_hpposllh hpExampleBuf = .data d ∧
      d.prec_lon = spec_prec_lon hpExampleBuf ∧
      d.prec_lat = spec_prec_lat hpExampleBuf) ∧
    spec_prec_lon hpExampleBuf = -(74123456677 : Rat) / 1000000000 :=
  ⟨by decide, claim_C8_hpposllh hpExampleBuf (by decide), by with_unfolding_all rfl⟩

/-- C9: the claim (and the own source comment over those lines) takes
the three `confirmed*` booleans from bits 5-7 of the `flags2` byte, but
the code masks the `flags` byte instead: an 84-byte payload with
`flags2 = 0xe0, flags = 0` decodes with all three `confirmed*` fields
False, and one with `flags = 0xe0, flags2 = 0` decodes with all three
True (the `valid`- and `flags`-derived booleans named in the claim do
use their own bytes). -/
theorem claim_C9_pvt_confirmed_bug :
    pvtIsData (nav_pvt pvtFlags2Buf) = true ∧
    pvtFlags2Buf.getD 22 0 = 224 ∧ pvtFlags2Buf.getD 21 0 = 0 ∧
    pvtConfirmedAvai (nav_pvt pvtFlags2Buf) = false ∧
    pvtConfirmedDate (nav_pvt pvtFlags2Buf) = false ∧
    pvtConfirmedTime (nav_pvt pvtFlags2Buf) = false ∧
    pvtIsData (nav_pvt pvtFlagsBuf) = true ∧
    pvtFlagsBuf.getD 22 0 = 0 ∧ pvtFlagsBuf.getD 21 0 = 224 ∧
    pvtConfirmedAvai (nav_pvt pvtFlagsBuf) = true ∧
    pvtConfirmedDate (nav_pvt pvtFlagsBuf) = true ∧
    pvtConfirmedTime (nav_pvt pvtFlagsBuf) = true := by
  refine ⟨?_, ?_, ?_, ?_, ?_, ?_, ?_, ?_, ?_, ?_, ?_, ?_⟩ <;> with_unfolding_all rfl

/-- C10: for every UBX-NAV-PVT payload of at least 84 bytes the decoded
`carrSoln` entry is the string `Fixed` when bit 7 of the `flags` byte
is set and the boolean `False` otherwise; `Float` is never returned,
because the second assignment to `carrSoln` in the source
unconditionally overwrites the first. -/
theorem claim_C10_carrsoln (buf : List Nat) (h84 : 84 ≤ buf.length) :
    pvtIsData (nav_pvt buf) = true ∧
    pvtCarrSoln (nav_pvt buf) =
      (if Int.land (buf.getD 21 0 : Int) 128 ≠ 0 then .pstr "Fixed" else .pbool false) ∧
    pvtCarrSoln (nav_pvt buf) ≠ .pstr "Float" := by
  unfold nav_pvt
  rw [if_neg (by omega), if_neg (by omega)]
  have hflags : (unpackFrom fmtPVT buf 0).getD 11 0 = (buf.getD 21 0 : Int) := rfl
  refine ⟨rfl, ?_, ?_⟩
  · dsimp only [pvtCarrSoln]
    rw [hflags]
  · dsimp only [pvtCarrSoln]
    rw [hflags]
    split <;> decide
theorem claim_C10_carrsoln_witness :
    pvtIsData (nav_pvt pvtFixedCarrBuf) = true ∧
    pvtCarrSoln (nav_pvt pvtFixedCarrBuf) =
      (if Int.land (pvtFixedCarrBuf.getD 21 0 : Int) 128 ≠ 0 then .pstr "Fixed"
       else .pbool false) ∧
    pvtCarrSoln (nav_pvt pvtFixedCarrBuf) ≠ .pstr "Float" :=
  claim_C10_carrsoln pvtFixedCarrBuf (by decide)
